import Mathlib

/-!
Shallow embedding of the VEDYA education-platform backend
(`assessment_methods.py`, `ai_planning_agent.py`, `ai_planning_dict.py`,
`conversational_chat.py`, `api_server.py`) with proofs about the claims of
its specification.

Modelling conventions:
* Python strings are Lean `String`s; `str.lower` and `str.strip` are modelled
  on the ASCII range (`pyLower`, `pyStrip`); Python substring containment
  `a in b` is `pyIn a b`.
* Wall-clock timestamps (`datetime.now()`) and random identifiers drawn from
  `uuid.uuid4()` are irrelevant to every claim: timestamp fields are omitted
  and identifier draws are explicit parameters where they matter.
* Calls of the hosted LLM and of OS subprocesses are modelled as explicit
  oracle parameters describing what the external call returned, or that it
  raised.
* Python exceptions are modelled with `Except`; in-place mutation is modelled
  by explicit state passing, and a handler that raises still returns the
  state as mutated up to the point of the raise.
* Long user-facing prose constants (multi-paragraph chat replies) are
  abbreviated to short stand-in strings: no claim depends on that prose, only
  on control flow, state updates and the shape of returned values, which are
  translated exactly from the source.
-/

namespace Vedya

set_option maxRecDepth 100000

/-- ASCII model of Python `str.lower()`. -/
def pyLower (s : String) : String := ⟨s.data.map Char.toLower⟩

/-- Characters removed by Python `str.strip()` (ASCII whitespace). -/
def pyIsSpace (c : Char) : Bool :=
  c = ' ' || c = '\t' || c = '\n' || c = '\r' || c = '\x0b' || c = '\x0c'

/-- Model of Python `str.strip()`. -/
def pyStrip (s : String) : String :=
  ⟨((s.data.dropWhile pyIsSpace).reverse.dropWhile pyIsSpace).reverse⟩

/-- Model of Python substring containment `sub in s`. -/
def pyIn (sub s : String) : Bool := decide (sub.data <:+: s.data)

/-- ASCII model of Python `str.title()`: a letter is uppercased when the
preceding character is not a letter and lowercased otherwise. -/
def pyTitleGo : Bool → List Char → List Char
  | _, [] => []
  | prevAlpha, c :: cs =>
    (if c.isAlpha then (if prevAlpha then c.toLower else c.toUpper) else c) ::
      pyTitleGo c.isAlpha cs

/-- Model of Python `str.title()`. -/
def pyTitle (s : String) : String := ⟨pyTitleGo false s.data⟩

/-! ## Assessment sub-flow (`assessment_methods.py`) -/

/-- Python values appearing as submitted answers: integers or strings.
`_check_answer` branches on `isinstance`; boolean answers occur in no claim
under verification and are left out of the value space. -/
inductive PyVal where
  | int (n : Int)
  | str (s : String)
deriving DecidableEq, Repr

/-- Model of Python `str(v)` on the values above. -/
def PyVal.pyStr : PyVal → String
  | .int n => toString n
  | .str s => s

/-- One question of an assessment, with the fields `grade_assessment` and
`_check_answer` read. In every assessment relevant to the claims the
`correct_answer` value is a string. -/
structure Question where
  id : String
  question : String
  type : String
  options : List String
  correct_answer : String
  explanation : String
deriving DecidableEq, Repr, Inhabited

/-- An assessment dictionary as consumed by `grade_assessment`: each key the
function reads with `.get` is an `Option`. -/
structure Assessment where
  questions : List Question
  passing_score : Option Int
  concept : Option String
  subject : Option String
  concept_assessed : Option String := none
  difficulty : Option String := none
deriving DecidableEq, Repr

/-- One submitted answer: the `id` and `answer` fields read by
`grade_assessment`. -/
structure Answer where
  id : String
  answer : PyVal
deriving DecidableEq, Repr

/-- Model of `AssessmentMethods._check_answer`. -/
def checkAnswer (user_answer : PyVal) (q : Question) : Bool :=
  if q.type = "multiple_choice" then
    match user_answer with
    | .int n =>
        if 0 ≤ n ∧ n < (q.options.length : Int) then
          decide (q.options.getD n.toNat "" = q.correct_answer)
        else false
    | .str s => decide (s = q.correct_answer)
  else if q.type = "true_false" then
    decide (user_answer.pyStr = q.correct_answer)
  else if q.type = "short_answer" then
    let ua := pyStrip (pyLower user_answer.pyStr)
    let ca := pyStrip (pyLower q.correct_answer)
    decide (ua = ca) || pyIn ua ca || pyIn ca ua
  else
    decide (user_answer.pyStr = q.correct_answer)

/-- Per-question grading record appended to `question_results`. -/
structure QuestionResult where
  id : String
  question : String
  user_answer : PyVal
  correct : Bool
  correct_answer : String
  explanation : String
deriving DecidableEq, Repr

/-- The dictionary returned by `grade_assessment` (the `completed_at`
timestamp is omitted). The percentage is an exact rational standing for the
Python float. -/
structure GradeResult where
  success : Bool
  passed : Bool
  score : Nat
  total : Nat
  score_percentage : ℚ
  passing_score : Int
  feedback : String
  question_results : List QuestionResult
  concept : String
  subject : String
deriving DecidableEq, Repr

/-- The answer-matching loop of `grade_assessment`: walk the submitted
answers in order, look the question up by id (the `next(...)` expression),
count correct ones and collect per-question results. -/
def gradeLoop (questions : List Question) (answers : List Answer) :
    Nat × List QuestionResult :=
  answers.foldl
    (fun acc ua =>
      match questions.find? (fun q => q.id == ua.id) with
      | none => acc
      | some q =>
          let correct := checkAnswer ua.answer q
          (if correct then acc.1 + 1 else acc.1,
           acc.2 ++ [{ id := ua.id, question := q.question,
                       user_answer := ua.answer, correct := correct,
                       correct_answer := q.correct_answer,
                       explanation := q.explanation }]))
    (0, [])

/-- Model of `AssessmentMethods.grade_assessment`. -/
def gradeAssessment (user_answers : List Answer) (assessment : Assessment) :
    GradeResult :=
  let questions := assessment.questions
  let passing_score := assessment.passing_score.getD ((questions.length : Int) / 2)
  let concept := assessment.concept.getD "the concept"
  let subject := assessment.subject.getD "the subject"
  let res := gradeLoop questions user_answers
  let correct_count := res.1
  let passed : Bool := decide ((correct_count : Int) ≥ passing_score)
  let feedback :=
    if passed then
      if correct_count = questions.length then
        "Excellent work! You\x27ve demonstrated complete mastery of " ++ concept ++ "."
      else
        "Good job! You\x27ve shown a solid understanding of " ++ concept ++ "."
    else
      "You\x27re making progress with " ++ concept ++ ", but let\x27s review some key points."
  let score_percentage : ℚ :=
    if questions.isEmpty then 0
    else ((correct_count : ℚ) / (questions.length : ℚ)) * 100
  { success := true, passed := passed, score := correct_count,
    total := questions.length, score_percentage := score_percentage,
    passing_score := passing_score, feedback := feedback,
    question_results := res.2, concept := concept, subject := subject }

/-- Model of `AssessmentMethods._create_fallback_assessment`. The
`correct_answer` of `q1` is the literal text `"A key concept in {subject}"`:
that source line lacks the f-string marker, so the placeholder is not
interpolated, while the four options are real f-strings. -/
def createFallbackAssessment (concept subject difficulty : String) : Assessment :=
  { questions :=
      [ { id := "q1"
        , question := "Which of the following best describes " ++ concept ++ "?"
        , type := "multiple_choice"
        , options :=
            [ "A key concept in " ++ subject
            , "An unrelated topic to " ++ subject
            , "A historical figure in " ++ subject
            , "A tool used only in advanced " ++ subject ]
        , correct_answer := "A key concept in {subject}"
        , explanation := concept ++ " is indeed a fundamental concept in " ++ subject ++ "." }
      , { id := "q2"
        , question := "True or False: " ++ concept ++ " is important for understanding " ++ subject ++ "."
        , type := "true_false"
        , options := ["True", "False"]
        , correct_answer := "True"
        , explanation := concept ++ " is a crucial component for understanding " ++ subject ++ "." }
      ]
  , passing_score := some 1
  , concept := none
  , subject := none
  , concept_assessed := some concept
  , difficulty := some difficulty }

/-! ## Helper lemmas on strings -/

/-- Appending on the left is cancellable for strings. -/
theorem string_append_right_inj (a s t : String) : a ++ s = a ++ t ↔ s = t := by
  constructor
  · intro h
    have hd := congrArg String.data h
    rw [String.data_append, String.data_append] at hd
    exact String.ext (List.append_cancel_left hd)
  · intro h
    rw [h]

/-- Two left-appended strings are different when the left parts disagree at
some index inside both of them. -/
theorem string_append_ne_of_index (a b s t : String) (i : Nat)
    (ha : i < a.data.length) (hb : i < b.data.length)
    (hne : a.data[i]? ≠ b.data[i]?) :
    a ++ s ≠ b ++ t := by
  intro h
  have hd := congrArg (fun u : String => u.data[i]?) h
  simp only [String.data_append] at hd
  rw [List.getElem?_append_left ha, List.getElem?_append_left hb] at hd
  exact hne hd

/-! ## Claims C4, C5, C9, C10 -/

/-- A one-question assessment used to refute the biconditional in C4. -/
def c4Assessment : Assessment :=
  { questions := [ { id := "q1", question := "Q", type := "multiple_choice",
                     options := ["A", "B"], correct_answer := "A",
                     explanation := "E" } ]
  , passing_score := some 1, concept := none, subject := none }

/-- C4 (counterexample): grading a one-question assessment with no submitted
answers yields `score_percentage = 0` although `total = 1`, so the claimed
"score_percentage equals 0 exactly when total == 0" is false: a percentage of
zero also arises from zero correct answers out of a non-zero total. -/
theorem c4_counterexample :
    (gradeAssessment [] c4Assessment).score_percentage = 0 ∧
    (gradeAssessment [] c4Assessment).total = 1 := by
  constructor
  · simp [gradeAssessment, c4Assessment, gradeLoop]
  · rfl

/-- C4 (amended): for every `(answers, assessment)` pair, `passed` is exactly
`score ≥ passing_score` with `passing_score` defaulting to `⌊total/2⌋` when
the assessment does not specify one, and `score_percentage` is
`score/total × 100` when `total ≠ 0` and `0` when `total = 0` (but it is also
`0` whenever no submitted answer is correct, so only this direction holds). -/
theorem c4_grade_assessment_pass_rule (user_answers : List Answer)
    (assessment : Assessment) :
    (gradeAssessment user_answers assessment).total = assessment.questions.length ∧
    (gradeAssessment user_answers assessment).passing_score =
      assessment.passing_score.getD ((assessment.questions.length : Int) / 2) ∧
    (gradeAssessment user_answers assessment).passed =
      decide (((gradeAssessment user_answers assessment).score : Int) ≥
        (gradeAssessment user_answers assessment).passing_score) ∧
    (gradeAssessment user_answers assessment).score_percentage =
      (if (gradeAssessment user_answers assessment).total = 0 then 0
       else (((gradeAssessment user_answers assessment).score : ℚ) /
         ((gradeAssessment user_answers assessment).total : ℚ)) * 100) := by
  refine ⟨rfl, rfl, rfl, ?_⟩
  by_cases hq : assessment.questions = []
  · simp [gradeAssessment, hq, gradeLoop]
  · simp [gradeAssessment, List.length_eq_zero, hq]

/-- A short-answer question whose correct answer is the string
"Gradient Descent Algorithm". -/
def gradientQuestion : Question :=
  { id := "q1", question := "Name the optimization algorithm.",
    type := "short_answer", options := [],
    correct_answer := "Gradient Descent Algorithm", explanation := "E" }

/-- C5: for a short-answer question, a submitted answer is graded correct iff
after lowercasing and stripping both strings the answer equals the correct
answer or either string is a substring of the other. -/
theorem c5_short_answer_grading (ans : PyVal) (q : Question)
    (h : q.type = "short_answer") :
    checkAnswer ans q = true ↔
      (pyStrip (pyLower ans.pyStr) = pyStrip (pyLower q.correct_answer) ∨
       (pyStrip (pyLower ans.pyStr)).data <:+: (pyStrip (pyLower q.correct_answer)).data ∨
       (pyStrip (pyLower q.correct_answer)).data <:+: (pyStrip (pyLower ans.pyStr)).data) := by
  simp only [checkAnswer, h, pyIn]
  rw [if_neg (by decide), if_neg (by decide), if_pos trivial]
  simp
  tauto

/-- C5 witness: the concrete scenario of the claim — the answer
"gradient descent" against correct answer "Gradient Descent Algorithm" is
graded correct. -/
theorem c5_short_answer_grading_witness :
    gradientQuestion.type = "short_answer" ∧
    checkAnswer (PyVal.str "gradient descent") gradientQuestion = true :=
  ⟨rfl,
    (c5_short_answer_grading (PyVal.str "gradient descent") gradientQuestion rfl).mpr
      (Or.inr (Or.inl (by decide)))⟩

/-- A two-question multiple-choice assessment with passing score 1, used for
C9: q1 has correct answer "A", q2 has correct answer "C". -/
def c9Assessment : Assessment :=
  { questions :=
      [ { id := "q1", question := "Q1", type := "multiple_choice",
          options := ["A", "B"], correct_answer := "A", explanation := "E1" }
      , { id := "q2", question := "Q2", type := "multiple_choice",
          options := ["C", "D"], correct_answer := "C", explanation := "E2" } ]
  , passing_score := some 1, concept := none, subject := none }

/-- The same correct answer for q1 submitted three times. -/
def c9TripleAnswer : List Answer :=
  [⟨"q1", PyVal.str "A"⟩, ⟨"q1", PyVal.str "A"⟩, ⟨"q1", PyVal.str "A"⟩]

/-- C9: an answer whose id matches no question is silently ignored (the whole
grading result is unchanged), while duplicated answers with the same id are
each checked and each correct one increments the score — submitting the
correct answer to q1 three times gives score 3, past the passing score 1,
past the 2 questions of the assessment and past the single distinct question
answered. -/
theorem c9_unmatched_ignored_duplicates_counted :
    (∀ (assessment : Assessment) (pre post : List Answer) (a : Answer),
        (∀ q ∈ assessment.questions, q.id ≠ a.id) →
        gradeAssessment (pre ++ a :: post) assessment =
          gradeAssessment (pre ++ post) assessment) ∧
    ((gradeAssessment c9TripleAnswer c9Assessment).score = 3 ∧
     (gradeAssessment c9TripleAnswer c9Assessment).passed = true ∧
     (gradeAssessment c9TripleAnswer c9Assessment).total = 2 ∧
     (gradeAssessment c9TripleAnswer c9Assessment).passing_score = 1) := by
  constructor
  · intro assessment pre post a h
    have hfind : assessment.questions.find? (fun q => q.id == a.id) = none := by
      rw [List.find?_eq_none]
      intro q hq
      simpa using h q hq
    have hloop : gradeLoop assessment.questions (pre ++ a :: post) =
        gradeLoop assessment.questions (pre ++ post) := by
      unfold gradeLoop
      simp only [List.foldl_append, List.foldl_cons, hfind]
    simp only [gradeAssessment, hloop]
  · refine ⟨by decide, by decide, by decide, by decide⟩

/-- C9 witness: grading with a single answer whose id "zz" matches no
question gives the same result as grading with no answers at all. -/
theorem c9_unmatched_witness :
    gradeAssessment ([] ++ Answer.mk "zz" (PyVal.str "A") :: []) c9Assessment =
      gradeAssessment ([] ++ []) c9Assessment :=
  c9_unmatched_ignored_duplicates_counted.1 c9Assessment [] []
    ⟨"zz", PyVal.str "A"⟩ (by decide)

/-- The q1 of the fallback assessment, written out. -/
theorem fallback_q1_eq (concept subject difficulty : String) :
    (createFallbackAssessment concept subject difficulty).questions.headI =
      { id := "q1"
      , question := "Which of the following best describes " ++ concept ++ "?"
      , type := "multiple_choice"
      , options :=
          [ "A key concept in " ++ subject
          , "An unrelated topic to " ++ subject
          , "A historical figure in " ++ subject
          , "A tool used only in advanced " ++ subject ]
      , correct_answer := "A key concept in {subject}"
      , explanation := concept ++ " is indeed a fundamental concept in " ++ subject ++ "." } := rfl

/-- C10: in the static fallback assessment, q1 has the literal
non-interpolated correct answer "A key concept in {subject}"; for every
subject other than the literal string "{subject}" that text is not among the
options of q1, no index-based multiple-choice answer to q1 is graded correct,
and the only text answer graded correct is the placeholder string itself. -/
theorem c10_fallback_q1_placeholder (concept subject difficulty : String)
    (h : subject ≠ "{subject}") :
    ((createFallbackAssessment concept subject difficulty).questions.headI.correct_answer =
       "A key concept in {subject}") ∧
    "A key concept in {subject}" ∉
      (createFallbackAssessment concept subject difficulty).questions.headI.options ∧
    (∀ n : Int,
      checkAnswer (PyVal.int n)
        ((createFallbackAssessment concept subject difficulty).questions.headI) = false) ∧
    (∀ t : String,
      checkAnswer (PyVal.str t)
        ((createFallbackAssessment concept subject difficulty).questions.headI) = true ↔
        t = "A key concept in {subject}") := by
  have hlit : "A key concept in {subject}" = "A key concept in " ++ "{subject}" := rfl
  have ha : "A key concept in " ++ subject ≠ "A key concept in {subject}" := by
    intro he
    exact h ((string_append_right_inj "A key concept in " subject "{subject}").mp
      (he.trans hlit))
  have hb : "An unrelated topic to " ++ subject ≠ "A key concept in {subject}" :=
    string_append_ne_of_index "An unrelated topic to " "A key concept in "
      subject "{subject}" 1 (by decide) (by decide) (by decide)
  have hc : "A historical figure in " ++ subject ≠ "A key concept in {subject}" :=
    string_append_ne_of_index "A historical figure in " "A key concept in "
      subject "{subject}" 2 (by decide) (by decide) (by decide)
  have hd : "A tool used only in advanced " ++ subject ≠ "A key concept in {subject}" :=
    string_append_ne_of_index "A tool used only in advanced " "A key concept in "
      subject "{subject}" 2 (by decide) (by decide) (by decide)
  rw [fallback_q1_eq]
  refine ⟨rfl, ?_, ?_, ?_⟩
  · simp only [List.mem_cons, List.not_mem_nil, or_false, not_or]
    exact ⟨fun x => ha x.symm, fun x => hb x.symm, fun x => hc x.symm, fun x => hd x.symm⟩
  · intro n
    simp only [checkAnswer]
    rw [if_pos trivial]
    split
    · rename_i hcond
      obtain ⟨h0, hlt⟩ := hcond
      have h4 : n.toNat = 0 ∨ n.toNat = 1 ∨ n.toNat = 2 ∨ n.toNat = 3 := by
        simp only [List.length_cons, List.length_nil] at hlt
        omega
      rcases h4 with h4 | h4 | h4 | h4 <;> rw [h4] <;>
        [exact decide_eq_false ha; exact decide_eq_false hb;
         exact decide_eq_false hc; exact decide_eq_false hd]
    · rfl
  · intro t
    simp [checkAnswer]

/-- C10 witness: the fallback assessment for concept "Recursion" in subject
"Programming" — the placeholder is not interpolated, index answers 0..3 all
grade false, and only the literal placeholder text grades true. -/
theorem c10_fallback_q1_placeholder_witness :
    ((createFallbackAssessment "Recursion" "Programming" "beginner").questions.headI.correct_answer =
       "A key concept in {subject}") ∧
    "A key concept in {subject}" ∉
      (createFallbackAssessment "Recursion" "Programming" "beginner").questions.headI.options ∧
    (∀ n : Int,
      checkAnswer (PyVal.int n)
        ((createFallbackAssessment "Recursion" "Programming" "beginner").questions.headI) = false) ∧
    (∀ t : String,
      checkAnswer (PyVal.str t)
        ((createFallbackAssessment "Recursion" "Programming" "beginner").questions.headI) = true ↔
        t = "A key concept in {subject}") :=
  c10_fallback_q1_placeholder "Recursion" "Programming" "beginner" (by decide)

/-! ## Python dictionaries (`session.profile.raw_data`) -/

/-- A Python dict with string keys and values: an assignment-ordered
association list. Built from the empty dict by item assignment it never
holds duplicate keys, matching CPython. -/
abbrev Dict := List (String × String)

/-- Model of `d.get(k)`. -/
def dictGet (d : Dict) (k : String) : Option String :=
  (d.find? (fun p => p.1 == k)).map Prod.snd

/-- Model of `d.get(k, default)`. -/
def dictGetD (d : Dict) (k defaultV : String) : String :=
  (dictGet d k).getD defaultV

/-- Model of the item assignment `d[k] = v`: replace the value in place when
the key exists, append otherwise. -/
def dictInsert (d : Dict) (k v : String) : Dict :=
  if (d.find? (fun p => p.1 == k)).isSome then
    d.map (fun p => if p.1 == k then (p.1, v) else p)
  else d ++ [(k, v)]

/-- Model of Python `len(d)`. -/
def dictLen (d : Dict) : Nat := d.length

/-- Python truthiness of `d.get(k)`: both a missing key and an empty-string
value are falsy. -/
def dictTruthy (d : Dict) (k : String) : Bool :=
  match dictGet d k with
  | none => false
  | some v => v != ""

/-- Model of `any(w in m for w in ws)`. -/
def anyIn (ws : List String) (m : String) : Bool := ws.any (fun w => pyIn w m)

/-- Looking up a different key after an item assignment is unchanged. -/
theorem dictGet_insert_ne (d : Dict) (k v k2 : String) (h : k2 ≠ k) :
    dictGet (dictInsert d k v) k2 = dictGet d k2 := by
  unfold dictInsert dictGet
  split
  · rw [List.find?_map]
    have hpred : ((fun p : String × String => p.1 == k2) ∘
        fun p : String × String => if p.1 == k then (p.1, v) else p) =
        fun p : String × String => p.1 == k2 := by
      funext p
      by_cases hp : p.1 = k <;> simp [hp]
    rw [hpred]
    cases hfind : d.find? (fun p => p.1 == k2) with
    | none => rfl
    | some q =>
        have hq : q.1 = k2 := by simpa using List.find?_some hfind
        simp [hq, h]
  · rw [List.find?_append]
    have hkk : (k == k2) = false := beq_eq_false_iff_ne.mpr (Ne.symm h)
    have h2 : List.find? (fun p : String × String => p.1 == k2) [(k, v)] = none := by
      simp [List.find?, hkk]
    rw [h2]
    cases d.find? (fun p : String × String => p.1 == k2) <;> rfl

/-- The dict maps `k` uniformly to `v` and contains `k`. -/
def dictHasExactly (d : Dict) (k v : String) : Prop :=
  (d.find? (fun p => p.1 == k)).isSome = true ∧ ∀ p ∈ d, p.1 = k → p.2 = v

/-- After `d[k] = v` the dict maps `k` uniformly to `v`. -/
theorem dictHasExactly_insert_self (d : Dict) (k v : String) :
    dictHasExactly (dictInsert d k v) k v := by
  unfold dictInsert
  split
  · rename_i hsome
    constructor
    · rw [List.find?_isSome] at hsome ⊢
      obtain ⟨p, hp, hpk⟩ := hsome
      refine ⟨(p.1, v), List.mem_map.mpr ⟨p, hp, by simp [hpk]⟩, hpk⟩
    · intro p hp hpk
      obtain ⟨q, hq, hfq⟩ := List.mem_map.mp hp
      by_cases hqk : q.1 == k
      · simp [hqk] at hfq
        rw [← hfq]
      · simp [hqk] at hfq
        rw [← hfq] at hpk
        simp [hpk] at hqk
  · constructor
    · rw [List.find?_isSome]
      exact ⟨(k, v), by simp⟩
    · rename_i hnone
      intro p hp hpk
      rcases List.mem_append.mp hp with hd | hone
      · exact absurd (List.find?_isSome.mpr ⟨p, hd, by simp [hpk]⟩) hnone
      · simp at hone
        rw [hone]

/-- Looking up the key just assigned yields the assigned value. -/
theorem dictGet_insert_self (d : Dict) (k v : String) :
    dictGet (dictInsert d k v) k = some v := by
  have hx := dictHasExactly_insert_self d k v
  unfold dictGet
  obtain ⟨hsome, huniq⟩ := hx
  cases hfind : (dictInsert d k v).find? (fun p => p.1 == k) with
  | none => rw [hfind] at hsome; simp at hsome
  | some q =>
      have hq : q.1 = k := by simpa using List.find?_some hfind
      have := huniq q (List.mem_of_find?_eq_some hfind) hq
      simp [this]

/-- Assigning a value the dict already holds uniformly at that key is a
no-op. -/
theorem dictInsert_of_hasExactly (d : Dict) (k v : String)
    (h : dictHasExactly d k v) : dictInsert d k v = d := by
  obtain ⟨hsome, huniq⟩ := h
  unfold dictInsert
  rw [if_pos hsome]
  have : ∀ p ∈ d, (if p.1 == k then (p.1, v) else p) = p := by
    intro p hp
    by_cases hpk : p.1 = k
    · simp only [hpk, beq_self_eq_true, if_pos]
      have := huniq p hp hpk
      rw [← this, ← hpk]
    · simp [hpk]
  rw [List.map_congr_left this]
  exact List.map_id d

/-- Uniform binding of one key survives the assignment of a different key. -/
theorem dictHasExactly_insert_ne (d : Dict) (k v k2 v2 : String) (h : k ≠ k2)
    (hx : dictHasExactly d k v) : dictHasExactly (dictInsert d k2 v2) k v := by
  obtain ⟨hsome, huniq⟩ := hx
  unfold dictInsert
  split
  · constructor
    · rw [List.find?_isSome] at hsome ⊢
      obtain ⟨p, hp, hpk⟩ := hsome
      have hpk2 : (p.1 == k2) = false := by
        have : p.1 = k := by simpa using hpk
        simp [this, h]
      exact ⟨p, List.mem_map.mpr ⟨p, hp, by simp [hpk2]⟩, hpk⟩
    · intro p hp hpk
      obtain ⟨q, hq, hfq⟩ := List.mem_map.mp hp
      by_cases hqk : q.1 = k2
      · simp [hqk] at hfq
        rw [← hfq] at hpk
        simp at hpk
        exact absurd hpk.symm h
      · simp [hqk] at hfq
        exact huniq p (hfq ▸ hq) hpk
  · constructor
    · rw [List.find?_isSome] at hsome ⊢
      obtain ⟨p, hp, hpk⟩ := hsome
      exact ⟨p, List.mem_append_left _ hp, hpk⟩
    · intro p hp hpk
      rcases List.mem_append.mp hp with hd | hone
      · exact huniq p hd hpk
      · simp at hone
        rw [hone] at hpk
        exact absurd hpk.symm h

/-- Truthiness of a key is unchanged by assigning a different key. -/
theorem dictTruthy_insert_ne (d : Dict) (k v k2 : String) (h : k2 ≠ k) :
    dictTruthy (dictInsert d k v) k2 = dictTruthy d k2 := by
  unfold dictTruthy
  rw [dictGet_insert_ne d k v k2 h]

/-- The key just assigned is truthy exactly when the value is non-empty. -/
theorem dictTruthy_insert_self (d : Dict) (k v : String) :
    dictTruthy (dictInsert d k v) k = (v != "") := by
  unfold dictTruthy
  rw [dictGet_insert_self]

/-! ## Requirement extraction (`ai_planning_dict.py`, `ai_planning_agent.py`) -/

/-- After the digit run of a candidate match of `(\d+)\s*hours?`, optional
whitespace and then the literal "hour" must follow (the optional final "s"
does not affect group 1). -/
def hoursTail (cs : List Char) : Bool :=
  decide ("hour".data <+: cs.dropWhile pyIsSpace)

/-- Dropping a while-matching part never lengthens a list. -/
theorem length_dropWhile_le {α : Type} (p : α → Bool) (l : List α) :
    (l.dropWhile p).length ≤ l.length := by
  induction l with
  | nil => simp
  | cons c cs ih =>
      by_cases h : p c
      · rw [List.dropWhile_cons_of_pos h]
        exact Nat.le_succ_of_le ih
      · rw [List.dropWhile_cons_of_neg h]

/-- Model of `re.search(r"(\d+)\s*hours?", m)`: group 1 of the leftmost
match. A match can only start at the head of a maximal digit run whose tail
passes `hoursTail` (starting inside a run gives the same tail, so the
leftmost successful start is the head of a run). -/
def hoursSearch : List Char → Option (List Char)
  | [] => none
  | c :: cs =>
      if c.isDigit then
        if hoursTail (cs.dropWhile Char.isDigit) then
          some (c :: cs.takeWhile Char.isDigit)
        else hoursSearch (cs.dropWhile Char.isDigit)
      else hoursSearch cs
termination_by l => l.length
decreasing_by
  · have := length_dropWhile_le Char.isDigit cs
    simp only [List.length_cons]
    omega
  · simp

/-- Block "Extract experience level" of `_extract_requirements_fallback`
(`ai_planning_dict.py`, lines 435-442). -/
def extractExperienceFallback (ml : String) (d : Dict) : Dict :=
  if !dictTruthy d "experience_level" then
    if anyIn ["beginner", "new", "start", "never"] ml then
      dictInsert d "experience_level" "beginner"
    else if anyIn ["intermediate", "some", "little"] ml then
      dictInsert d "experience_level" "intermediate"
    else if anyIn ["advanced", "experienced", "expert"] ml then
      dictInsert d "experience_level" "advanced"
    else d
  else d

/-- Block "Extract learning style" of `_extract_requirements_fallback`
(`ai_planning_dict.py`, lines 444-453): the final else always writes
"mixed". -/
def extractStyleFallback (ml : String) (d : Dict) : Dict :=
  if !dictTruthy d "learning_style" then
    if anyIn ["visual", "videos", "watch"] ml then
      dictInsert d "learning_style" "visual"
    else if anyIn ["hands-on", "practice", "projects", "build"] ml then
      dictInsert d "learning_style" "hands-on"
    else if anyIn ["reading", "books", "text"] ml then
      dictInsert d "learning_style" "reading"
    else dictInsert d "learning_style" "mixed"
  else d

/-- Block "Extract time availability" of `_extract_requirements_fallback`
(`ai_planning_dict.py`, lines 455-460). -/
def extractTimeFallback (ml : String) (d : Dict) : Dict :=
  if !dictTruthy d "time_availability" then
    match hoursSearch ml.data with
    | some digits =>
        dictInsert d "time_availability" (String.mk digits ++ " hours per week")
    | none => d
  else d

/-- Model of `AIPoweredPlanningAgent._extract_requirements_fallback`
(`ai_planning_dict.py`): keyword extraction used when the LLM call fails;
the three guarded blocks run in sequence on the lowercased message. -/
def extractRequirementsFallback (raw : Dict) (message : String) : Dict :=
  let ml := pyLower message
  extractTimeFallback ml (extractStyleFallback ml (extractExperienceFallback ml raw))

/-- The experience lines of the inline keyword extraction in
`AIPoweredPlanningAgent._handle_requirements_gathering`
(`ai_planning_agent.py`, lines 179-184): the writes are unguarded, so an
already-filled slot is overwritten whenever a keyword matches. -/
def agentExtractExperience (ml : String) (d : Dict) : Dict :=
  if pyIn "beginner" ml || pyIn "new" ml then
    dictInsert d "experience" "beginner"
  else if pyIn "intermediate" ml then
    dictInsert d "experience" "intermediate"
  else if pyIn "advanced" ml then
    dictInsert d "experience" "advanced"
  else d

/-- The learning-style lines of the same inline extraction
(`ai_planning_agent.py`, lines 186-191), also unguarded. -/
def agentExtractStyle (ml : String) (d : Dict) : Dict :=
  if pyIn "hands-on" ml || pyIn "practice" ml then
    dictInsert d "learning_style" "hands-on"
  else if pyIn "visual" ml then
    dictInsert d "learning_style" "visual"
  else if pyIn "reading" ml then
    dictInsert d "learning_style" "reading"
  else d

/-- Model of the inline keyword extraction of
`AIPoweredPlanningAgent._handle_requirements_gathering`
(`ai_planning_agent.py`, lines 177-191). -/
def agentExtractRequirements (raw : Dict) (message : String) : Dict :=
  let ml := pyLower message
  agentExtractStyle ml (agentExtractExperience ml raw)

/-- A dict transformation preserves every truthy key together with its
value. -/
def PreservesTruthy (d e : Dict) : Prop :=
  ∀ k, dictTruthy d k = true → dictGet e k = dictGet d k ∧ dictTruthy e k = true

/-- The identity transformation preserves truthy keys. -/
theorem preservesTruthy_refl (d : Dict) : PreservesTruthy d d :=
  fun _ hk => ⟨rfl, hk⟩

/-- Preservation of truthy keys composes. -/
theorem preservesTruthy_trans {d e f : Dict} (h1 : PreservesTruthy d e)
    (h2 : PreservesTruthy e f) : PreservesTruthy d f := by
  intro k hk
  obtain ⟨hg1, ht1⟩ := h1 k hk
  obtain ⟨hg2, ht2⟩ := h2 k ht1
  exact ⟨hg2.trans hg1, ht2⟩

/-- Assigning a slot that is currently falsy preserves every truthy key. -/
theorem preservesTruthy_insert {d : Dict} {slot : String} (v : String)
    (hguard : dictTruthy d slot = false) :
    PreservesTruthy d (dictInsert d slot v) := by
  intro k hk
  have hks : k ≠ slot := by
    intro he
    rw [he] at hk
    simp [hk] at hguard
  exact ⟨dictGet_insert_ne d slot v k hks,
    by rw [dictTruthy_insert_ne d slot v k hks]; exact hk⟩

/-- The guarded experience block preserves truthy keys. -/
theorem preservesTruthy_extractExperience (ml : String) (d : Dict) :
    PreservesTruthy d (extractExperienceFallback ml d) := by
  unfold extractExperienceFallback
  split_ifs with h1 h2 h3 h4
  any_goals exact preservesTruthy_refl d
  all_goals exact preservesTruthy_insert _ (by simpa using h1)

/-- The guarded style block preserves truthy keys. -/
theorem preservesTruthy_extractStyle (ml : String) (d : Dict) :
    PreservesTruthy d (extractStyleFallback ml d) := by
  unfold extractStyleFallback
  split_ifs with h1 h2 h3 h4
  any_goals exact preservesTruthy_refl d
  all_goals exact preservesTruthy_insert _ (by simpa using h1)

/-- The guarded time block preserves truthy keys. -/
theorem preservesTruthy_extractTime (ml : String) (d : Dict) :
    PreservesTruthy d (extractTimeFallback ml d) := by
  unfold extractTimeFallback
  split_ifs with h1
  · cases hoursSearch ml.data with
    | none => exact preservesTruthy_refl d
    | some digits => exact preservesTruthy_insert _ (by simpa using h1)
  · exact preservesTruthy_refl d

/-- The whole fallback extractor preserves truthy keys: a populated slot is
never overwritten. -/
theorem preservesTruthy_extractFallback (raw : Dict) (m : String) :
    PreservesTruthy raw (extractRequirementsFallback raw m) := by
  unfold extractRequirementsFallback
  exact preservesTruthy_trans (preservesTruthy_extractExperience _ _)
    (preservesTruthy_trans (preservesTruthy_extractStyle _ _)
      (preservesTruthy_extractTime _ _))

/-- The style block leaves the truthiness of other keys unchanged. -/
theorem extractStyle_truthy_ne (ml : String) (d : Dict) (k : String)
    (h : k ≠ "learning_style") :
    dictTruthy (extractStyleFallback ml d) k = dictTruthy d k := by
  unfold extractStyleFallback
  split_ifs <;> first
    | rfl
    | exact dictTruthy_insert_ne _ _ _ _ h

/-- The time block leaves the truthiness of other keys unchanged. -/
theorem extractTime_truthy_ne (ml : String) (d : Dict) (k : String)
    (h : k ≠ "time_availability") :
    dictTruthy (extractTimeFallback ml d) k = dictTruthy d k := by
  unfold extractTimeFallback
  split_ifs
  · cases hoursSearch ml.data with
    | none => rfl
    | some digits => exact dictTruthy_insert_ne _ _ _ _ h
  · rfl

/-- A truthy experience slot makes the experience block a no-op. -/
theorem extractExperience_skip (ml : String) (d : Dict)
    (h : dictTruthy d "experience_level" = true) :
    extractExperienceFallback ml d = d := by
  unfold extractExperienceFallback
  rw [if_neg (by simp [h])]

/-- A truthy style slot makes the style block a no-op. -/
theorem extractStyle_skip (ml : String) (d : Dict)
    (h : dictTruthy d "learning_style" = true) :
    extractStyleFallback ml d = d := by
  unfold extractStyleFallback
  rw [if_neg (by simp [h])]

/-- A truthy time slot makes the time block a no-op. -/
theorem extractTime_skip (ml : String) (d : Dict)
    (h : dictTruthy d "time_availability" = true) :
    extractTimeFallback ml d = d := by
  unfold extractTimeFallback
  rw [if_neg (by simp [h])]

/-- After the style block the style slot is always truthy (the final else
writes "mixed"). -/
theorem extractStyle_truthy_self (ml : String) (d : Dict) :
    dictTruthy (extractStyleFallback ml d) "learning_style" = true := by
  unfold extractStyleFallback
  split_ifs with h1 h2 h3 h4
  any_goals rw [dictTruthy_insert_self]
  any_goals rfl
  simpa using h1

/-- When the experience slot is still falsy after the experience block, the
block did nothing and no experience keyword occurs in the message. -/
theorem extractExperience_false_inv (ml : String) (d : Dict)
    (h : dictTruthy (extractExperienceFallback ml d) "experience_level" = false) :
    extractExperienceFallback ml d = d ∧
    anyIn ["beginner", "new", "start", "never"] ml = false ∧
    anyIn ["intermediate", "some", "little"] ml = false ∧
    anyIn ["advanced", "experienced", "expert"] ml = false := by
  unfold extractExperienceFallback at h ⊢
  split_ifs at h ⊢ with h1 h2 h3 h4
  · rw [dictTruthy_insert_self] at h
    simp at h
  · rw [dictTruthy_insert_self] at h
    simp at h
  · rw [dictTruthy_insert_self] at h
    simp at h
  · exact ⟨rfl, by simpa using h2, by simpa using h3, by simpa using h4⟩
  · simp at h1
    rw [h1] at h
    simp at h

/-- The value written by the time block is never the empty string. -/
theorem hours_value_ne_empty (digits : List Char) :
    String.mk digits ++ " hours per week" ≠ "" := by
  intro h
  have hlen := congrArg (fun s : String => s.data.length) h
  simp only [String.data_append, List.length_append] at hlen
  have h15 : (" hours per week".data).length = 15 := rfl
  have h0 : (("" : String).data).length = 0 := rfl
  rw [h15, h0] at hlen
  omega

/-- When the time slot is still falsy after the time block, the block did
nothing and the hours regex found no match. -/
theorem extractTime_false_inv (ml : String) (d : Dict)
    (h : dictTruthy (extractTimeFallback ml d) "time_availability" = false) :
    extractTimeFallback ml d = d ∧ hoursSearch ml.data = none := by
  unfold extractTimeFallback at h ⊢
  split_ifs at h ⊢ with h1
  · cases hh : hoursSearch ml.data with
    | none => exact ⟨rfl, rfl⟩
    | some digits =>
        rw [hh, dictTruthy_insert_self] at h
        simp at h
        exact absurd h (hours_value_ne_empty digits)
  · simp at h1
    rw [h1] at h
    simp at h

/-- With a falsy experience slot and no experience keyword in the message
the experience block is a no-op. -/
theorem extractExperience_second (ml : String) (e : Dict)
    (hT : dictTruthy e "experience_level" = false)
    (h1 : anyIn ["beginner", "new", "start", "never"] ml = false)
    (h2 : anyIn ["intermediate", "some", "little"] ml = false)
    (h3 : anyIn ["advanced", "experienced", "expert"] ml = false) :
    extractExperienceFallback ml e = e := by
  unfold extractExperienceFallback
  rw [if_pos (by simp [hT]), if_neg (by simp [h1]), if_neg (by simp [h2]),
    if_neg (by simp [h3])]

/-- With a falsy time slot and no regex match the time block is a no-op. -/
theorem extractTime_second (ml : String) (e : Dict)
    (hT : dictTruthy e "time_availability" = false)
    (hnone : hoursSearch ml.data = none) :
    extractTimeFallback ml e = e := by
  unfold extractTimeFallback
  rw [if_pos (by simp [hT]), hnone]

/-- Running the guarded fallback extractor twice with the same message gives
the same profile as running it once. -/
theorem extractFallback_idem (raw : Dict) (m : String) :
    extractRequirementsFallback (extractRequirementsFallback raw m) m =
      extractRequirementsFallback raw m := by
  unfold extractRequirementsFallback
  dsimp only
  have hTel : dictTruthy
      (extractTimeFallback (pyLower m) (extractStyleFallback (pyLower m)
        (extractExperienceFallback (pyLower m) raw))) "experience_level" =
      dictTruthy (extractExperienceFallback (pyLower m) raw) "experience_level" := by
    rw [extractTime_truthy_ne _ _ _ (by decide),
      extractStyle_truthy_ne _ _ _ (by decide)]
  have hxe : extractExperienceFallback (pyLower m)
      (extractTimeFallback (pyLower m) (extractStyleFallback (pyLower m)
        (extractExperienceFallback (pyLower m) raw))) =
      extractTimeFallback (pyLower m) (extractStyleFallback (pyLower m)
        (extractExperienceFallback (pyLower m) raw)) := by
    by_cases hT : dictTruthy (extractExperienceFallback (pyLower m) raw)
        "experience_level" = true
    · exact extractExperience_skip _ _ (hTel.trans hT)
    · have hF : dictTruthy (extractExperienceFallback (pyLower m) raw)
          "experience_level" = false := by
        cases hb : dictTruthy (extractExperienceFallback (pyLower m) raw)
            "experience_level"
        · rfl
        · exact absurd hb hT
      obtain ⟨-, hk1, hk2, hk3⟩ := extractExperience_false_inv (pyLower m) raw hF
      exact extractExperience_second _ _ (hTel.trans hF) hk1 hk2 hk3
  rw [hxe]
  have hse : extractStyleFallback (pyLower m)
      (extractTimeFallback (pyLower m) (extractStyleFallback (pyLower m)
        (extractExperienceFallback (pyLower m) raw))) =
      extractTimeFallback (pyLower m) (extractStyleFallback (pyLower m)
        (extractExperienceFallback (pyLower m) raw)) := by
    apply extractStyle_skip
    rw [extractTime_truthy_ne _ _ _ (by decide)]
    exact extractStyle_truthy_self _ _
  rw [hse]
  by_cases hT : dictTruthy
      (extractTimeFallback (pyLower m) (extractStyleFallback (pyLower m)
        (extractExperienceFallback (pyLower m) raw))) "time_availability" = true
  · exact extractTime_skip _ _ hT
  · have hF : dictTruthy
        (extractTimeFallback (pyLower m) (extractStyleFallback (pyLower m)
          (extractExperienceFallback (pyLower m) raw))) "time_availability" = false := by
      cases hb : dictTruthy
          (extractTimeFallback (pyLower m) (extractStyleFallback (pyLower m)
            (extractExperienceFallback (pyLower m) raw))) "time_availability"
      · rfl
      · exact absurd hb hT
    obtain ⟨-, hnone⟩ := extractTime_false_inv (pyLower m) _ hF
    exact extractTime_second _ _ hF hnone

/-- The unguarded agent style block keeps a uniform binding of any other
key. -/
theorem agentStyle_hasExactly (ml : String) (d : Dict) (k v : String)
    (hne : k ≠ "learning_style") (h : dictHasExactly d k v) :
    dictHasExactly (agentExtractStyle ml d) k v := by
  unfold agentExtractStyle
  split_ifs <;> first
    | exact h
    | exact dictHasExactly_insert_ne _ _ _ _ _ hne h

/-- Running the unguarded agent extractor twice with the same message gives
the same profile as running it once (the same values are re-assigned). -/
theorem agentExtract_idem (raw : Dict) (m : String) :
    agentExtractRequirements (agentExtractRequirements raw m) m =
      agentExtractRequirements raw m := by
  unfold agentExtractRequirements
  dsimp only
  have hxe : agentExtractExperience (pyLower m)
      (agentExtractStyle (pyLower m) (agentExtractExperience (pyLower m) raw)) =
      agentExtractStyle (pyLower m) (agentExtractExperience (pyLower m) raw) := by
    unfold agentExtractExperience
    split_ifs with h1 h2 h3
    · exact dictInsert_of_hasExactly _ _ _ (agentStyle_hasExactly _ _ _ _ (by decide)
        (dictHasExactly_insert_self raw "experience" "beginner"))
    · exact dictInsert_of_hasExactly _ _ _ (agentStyle_hasExactly _ _ _ _ (by decide)
        (dictHasExactly_insert_self raw "experience" "intermediate"))
    · exact dictInsert_of_hasExactly _ _ _ (agentStyle_hasExactly _ _ _ _ (by decide)
        (dictHasExactly_insert_self raw "experience" "advanced"))
    · rfl
  rw [hxe]
  unfold agentExtractStyle
  split_ifs with h1 h2 h3
  · exact dictInsert_of_hasExactly _ _ _
      (dictHasExactly_insert_self _ "learning_style" "hands-on")
  · exact dictInsert_of_hasExactly _ _ _
      (dictHasExactly_insert_self _ "learning_style" "visual")
  · exact dictInsert_of_hasExactly _ _ _
      (dictHasExactly_insert_self _ "learning_style" "reading")
  · rfl

/-- C3 (counterexample): the inline extractor of `ai_planning_agent.py`
overwrites an already-populated slot — a profile with experience
"intermediate" becomes "beginner" on a later message containing
"beginner". -/
theorem c3_counterexample :
    dictGet [("experience", "intermediate")] "experience" = some "intermediate" ∧
    dictGet (agentExtractRequirements [("experience", "intermediate")]
        "i am a beginner") "experience" = some "beginner" := by
  constructor
  · rfl
  · decide

/-- C3 (amended): the guarded fallback extractor of `ai_planning_dict.py`
never overwrites a populated (non-empty) slot — first match wins — and both
extractors are idempotent: running either twice with the same message gives
the same profile as running it once. The inline extractor of
`ai_planning_agent.py`, however, does overwrite populated slots on a new
match (see the counterexample). -/
theorem c3_extractor_first_match_and_idempotent :
    (∀ (raw : Dict) (m k : String), dictTruthy raw k = true →
        dictGet (extractRequirementsFallback raw m) k = dictGet raw k) ∧
    (∀ (raw : Dict) (m : String),
        extractRequirementsFallback (extractRequirementsFallback raw m) m =
          extractRequirementsFallback raw m) ∧
    (∀ (raw : Dict) (m : String),
        agentExtractRequirements (agentExtractRequirements raw m) m =
          agentExtractRequirements raw m) :=
  ⟨fun raw m k hk => (preservesTruthy_extractFallback raw m k hk).1,
   extractFallback_idem, agentExtract_idem⟩

/-- C3 witness: a profile whose experience slot holds "intermediate" keeps
it across a fallback-extractor run on a message containing "beginner". -/
theorem c3_extractor_witness :
    dictGet (extractRequirementsFallback [("experience_level", "intermediate")]
      "i am a beginner") "experience_level" =
      dictGet [("experience_level", "intermediate")] "experience_level" :=
  c3_extractor_first_match_and_idempotent.1
    [("experience_level", "intermediate")] "i am a beginner" "experience_level"
    (by decide)

/-! ## The planning agent of `ai_planning_agent.py` (machine A) -/

/-- Stages of `ConversationStage` in `ai_planning_agent.py` and
`ai_planning_dict.py`. -/
inductive AStage where
  | initial
  | gathering
  | planning
  | complete
deriving DecidableEq, Repr

/-- Position of a stage in the fixed forward sequence. -/
def AStage.rank : AStage → Nat
  | .initial => 0
  | .gathering => 1
  | .planning => 2
  | .complete => 3

/-- The `.value` string of a stage. -/
def AStage.value : AStage → String
  | .initial => "initial"
  | .gathering => "gathering"
  | .planning => "planning"
  | .complete => "complete"

/-- A module of the template plan of `ai_planning_agent.py`. -/
structure AModule where
  title : String
  description : String
  duration_weeks : Int
  key_concepts : List String
  activities : List String
deriving DecidableEq, Repr

/-- A kanban task of the template plan (the random `task_id` is omitted). -/
structure ATask where
  title : String
  description : String
  status : String
  assigned_to : String
  priority : String
  estimated_hours : Int
deriving DecidableEq, Repr

/-- The template learning plan of `ai_planning_agent.py` (the random
`plan_id` is omitted). -/
structure APlan where
  title : String
  description : String
  subject : String
  difficulty_level : String
  learning_style : String
  total_duration_weeks : Int
  modules : List AModule
  kanban_tasks : List ATask
  prerequisites : List String
  learning_outcomes : List String
deriving DecidableEq, Repr

/-- A `PlanningSession` of `ai_planning_agent.py` (timestamps omitted; the
history keeps sender and text). -/
structure ASession where
  session_id : String
  stage : AStage
  raw_data : Dict
  conversation_history : List (String × String)
  learning_plan : Option APlan
deriving DecidableEq, Repr

/-- The ordered subject keyword list of `_handle_initial_conversation`. -/
def agentSubjects : List String :=
  ["generative ai", "ai", "programming", "python", "javascript",
   "web development", "data science", "machine learning", "mathematics",
   "physics", "chemistry"]

/-- Model of `_handle_initial_conversation` (`ai_planning_agent.py`): on LLM
success the first listed subject contained in the lowercased message is
recorded and the stage advances to GATHERING; on LLM failure (the whole try
body, including the subject scan, is skipped) the canned fallback reply is
returned and nothing changes. -/
def handleInitialA (s : ASession) (message : String)
    (llm : Except Unit String) : ASession × String :=
  match llm with
  | .error _ =>
      (s, "Hello! I\x27m here to help you create a personalized learning plan. What subject would you like to learn?")
  | .ok content =>
      let ml := pyLower message
      match agentSubjects.find? (fun subj => pyIn subj ml) with
      | some subj =>
          ({ s with raw_data := dictInsert s.raw_data "subject" subj,
                    stage := .gathering }, content)
      | none => (s, content)

/-- Model of `_generate_learning_plan` (`ai_planning_agent.py`): the purely
deterministic template plan — three modules and three kanban tasks — built
from the profile; sets the plan and moves the stage to COMPLETE. The long
plan-summary prose of the reply is abbreviated; the plan-ready tail logic
`(plan_ready_message and plan_ready_message.strip()) or default` is kept
exactly. -/
def generateLearningPlanA (s : ASession) (planReadyMessage : Option String) :
    ASession × String :=
  let subject := dictGetD s.raw_data "subject" "the subject"
  let plan : APlan :=
    { title := "Personalized " ++ pyTitle subject ++ " Learning Plan"
    , description := "A comprehensive plan to master " ++ subject
    , subject := subject
    , difficulty_level := dictGetD s.raw_data "experience" "beginner"
    , learning_style := dictGetD s.raw_data "learning_style" "mixed"
    , total_duration_weeks := 12
    , modules :=
        [ { title := pyTitle subject ++ " Fundamentals"
          , description := "Core concepts and basics of " ++ subject
          , duration_weeks := 4
          , key_concepts := ["Basic terminology", "Core principles", "Essential tools"]
          , activities := ["Interactive tutorials", "Practice exercises", "Quizzes"] }
        , { title := "Intermediate " ++ pyTitle subject
          , description := "Building practical skills in " ++ subject
          , duration_weeks := 4
          , key_concepts := ["Advanced concepts", "Real applications", "Problem solving"]
          , activities := ["Projects", "Case studies", "Hands-on practice"] }
        , { title := "Advanced " ++ pyTitle subject ++ " & Applications"
          , description := "Mastering " ++ subject ++ " and real-world applications"
          , duration_weeks := 4
          , key_concepts := ["Expert techniques", "Industry practices", "Innovation"]
          , activities := ["Capstone project", "Portfolio development", "Presentations"] } ]
    , kanban_tasks :=
        [ { title := "Complete Module 1: Fundamentals"
          , description := "Master the basics of " ++ subject
          , status := "todo", assigned_to := "Student", priority := "high"
          , estimated_hours := 40 }
        , { title := "Complete Module 2: Intermediate Skills"
          , description := "Develop practical " ++ subject ++ " skills"
          , status := "todo", assigned_to := "Student", priority := "medium"
          , estimated_hours := 40 }
        , { title := "Complete Module 3: Advanced Applications"
          , description := "Master advanced " ++ subject ++ " concepts"
          , status := "todo", assigned_to := "Student", priority := "medium"
          , estimated_hours := 40 } ]
    , prerequisites := []
    , learning_outcomes :=
        [ "Understand core " ++ subject ++ " concepts"
        , "Apply " ++ subject ++ " to solve real problems"
        , "Build projects using " ++ subject
        , "Explain " ++ subject ++ " concepts to others" ] }
  let defaultReady := "Ready to start learning? I can take you to your personalized dashboard where you\x27ll see your full plan, progress tracking, and begin your first lesson."
  let readyTail :=
    match planReadyMessage with
    | none => defaultReady
    | some prm =>
        if prm = "" then defaultReady
        else if pyStrip prm = "" then defaultReady
        else pyStrip prm
  let message :=
    "Perfect! I\x27ve created your personalized learning plan for " ++ subject ++
      ".\n\n[plan summary abbreviated]\n\n" ++ readyTail
  ({ s with learning_plan := some plan, stage := .complete }, message)

/-- Model of `_handle_requirements_gathering` (`ai_planning_agent.py`): on
LLM success the inline keyword extraction runs and, when the profile holds
at least three entries, the stage moves to PLANNING and the plan is
generated immediately (no `plan_ready_message` is passed on this path); on
LLM failure the fallback question is returned and nothing changes. -/
def handleGatheringA (s : ASession) (message : String)
    (llm : Except Unit String) : ASession × String :=
  match llm with
  | .error _ =>
      (s, "Could you tell me about your experience level and learning preferences?")
  | .ok content =>
      let s1 := { s with raw_data := agentExtractRequirements s.raw_data message }
      if 3 ≤ dictLen s1.raw_data then
        generateLearningPlanA { s1 with stage := .planning } none
      else (s1, content)

/-- Model of `_handle_plan_generation` (`ai_planning_agent.py`): delegates
to the plan generator with the `plan_ready_message`. -/
def handlePlanGenerationA (s : ASession) (planReadyMessage : Option String) :
    ASession × String :=
  generateLearningPlanA s planReadyMessage

/-- Model of `_handle_complete_stage` (`ai_planning_agent.py`): a static
acknowledgment, no state change. -/
def handleCompleteA (s : ASession) : ASession × String :=
  (s, "Your learning plan is complete! You can now start your learning journey.")

/-- The dictionary returned by `process_message` (`ai_planning_agent.py`),
timestamps and the metadata dictionary omitted. -/
structure AReturn where
  response : String
  session_id : String
  stage : String
  plan_ready : Bool
deriving DecidableEq, Repr

/-- Model of `AIPoweredPlanningAgent.process_message` acting on a given
session (the store lookup of `get_or_create_session` is a separate step):
append the user message to the history, dispatch on the stage, append the
reply, return the response dictionary together with the mutated session. -/
def processMessageA (s : ASession) (message : String)
    (llm : Except Unit String) (planReadyMessage : Option String) :
    ASession × AReturn :=
  let s0 := { s with conversation_history :=
      s.conversation_history ++ [("user", message)] }
  let hr :=
    match s0.stage with
    | .initial => handleInitialA s0 message llm
    | .gathering => handleGatheringA s0 message llm
    | .planning => handlePlanGenerationA s0 planReadyMessage
    | .complete => handleCompleteA s0
  let s2 := { hr.1 with conversation_history :=
      hr.1.conversation_history ++ [("ai", hr.2)] }
  (s2, { response := hr.2, session_id := s2.session_id,
         stage := s2.stage.value,
         plan_ready := s2.stage == AStage.complete && s2.learning_plan.isSome })

/-! ## Plan generation of `ai_planning_dict.py` -/

/-- A pydantic `LearningModule` of `ai_planning_dict.py`. -/
structure DModule where
  title : String
  description : String
  duration_weeks : Int
  key_concepts : List String
  activities : List String
  prerequisites : List String
deriving DecidableEq, Repr

/-- A pydantic `KanbanTask` of `ai_planning_dict.py` (the random `task_id`
is omitted). -/
structure DTask where
  title : String
  description : String
  status : String
  assigned_to : String
  priority : String
  estimated_hours : Int
deriving DecidableEq, Repr

/-- A pydantic `LearningPlan` of `ai_planning_dict.py` (the random `plan_id`
is omitted). The pydantic schema requires the list fields to be present but
does not require them to be non-empty. -/
structure DPlan where
  title : String
  description : String
  subject : String
  difficulty_level : String
  learning_style : String
  total_duration_weeks : Int
  modules : List DModule
  kanban_tasks : List DTask
  prerequisites : List String
  learning_outcomes : List String
deriving DecidableEq, Repr

/-- Model of `_generate_fallback_plan` (`ai_planning_dict.py`): the
deterministic template with three modules and two kanban tasks. -/
def generateFallbackPlan (requirements : Dict) : DPlan :=
  let subject := dictGetD requirements "subject" "the topic"
  { title := "Personalized " ++ pyTitle subject ++ " Learning Journey"
  , description := "A comprehensive learning plan tailored to your " ++ subject ++ " goals"
  , subject := subject
  , difficulty_level := dictGetD requirements "experience_level" "beginner"
  , learning_style := dictGetD requirements "learning_style" "mixed"
  , total_duration_weeks := 12
  , modules :=
      [ { title := pyTitle subject ++ " Fundamentals"
        , description := "Core concepts and basics of " ++ subject
        , duration_weeks := 3
        , key_concepts := ["Basic terminology", "Core principles", "Essential tools"]
        , activities := ["Reading materials", "Practice exercises", "Simple projects"]
        , prerequisites := [] }
      , { title := "Intermediate " ++ pyTitle subject
        , description := "Building practical skills in " ++ subject
        , duration_weeks := 4
        , key_concepts := ["Advanced concepts", "Practical applications", "Real-world examples"]
        , activities := ["Hands-on projects", "Case studies", "Peer collaboration"]
        , prerequisites := [pyTitle subject ++ " Fundamentals"] }
      , { title := "Advanced " ++ pyTitle subject ++ " & Projects"
        , description := "Master-level concepts and portfolio development"
        , duration_weeks := 5
        , key_concepts := ["Expert techniques", "Industry best practices", "Portfolio development"]
        , activities := ["Capstone project", "Industry simulation", "Knowledge sharing"]
        , prerequisites := ["Intermediate " ++ pyTitle subject] }
      ]
  , kanban_tasks :=
      [ { title := "Complete Module 1"
        , description := "Master the fundamentals of " ++ subject
        , status := "todo", assigned_to := "Learner", priority := "high"
        , estimated_hours := 20 }
      , { title := "Complete Module 2"
        , description := "Build intermediate skills in " ++ subject
        , status := "todo", assigned_to := "Learner", priority := "medium"
        , estimated_hours := 30 }
      ]
  , prerequisites := []
  , learning_outcomes :=
      [ "Understand core concepts of " ++ subject
      , "Apply " ++ subject ++ " knowledge to real projects"
      , "Build a portfolio demonstrating " ++ subject ++ " skills" ] }

/-- Model of `AIPoweredPlanningAgent._generate_learning_plan`
(`ai_planning_dict.py`). The oracle is the LLM call plus the pydantic parse:
`Except.ok p` is a successfully parsed `LearningPlan`, `Except.error e` any
exception on that path (LLM failure or parse failure). The try/except of the
source catches every exception and substitutes the fallback, so the model is
total; both branches also store the plan and set the session stage to
COMPLETE. -/
def generateLearningPlanDict (requirements : Dict)
    (llm : Except String DPlan) : DPlan :=
  match llm with
  | .ok parsed => parsed
  | .error _ => generateFallbackPlan requirements

/-! ## Claims C2 and C7 -/

/-- A schema-valid parsed plan whose list fields are all empty: pydantic
requires the keys, not non-emptiness. -/
def emptyParsedPlan : DPlan :=
  { title := "t", description := "d", subject := "s",
    difficulty_level := "beginner", learning_style := "mixed",
    total_duration_weeks := 1, modules := [], kanban_tasks := [],
    prerequisites := [], learning_outcomes := [] }

/-- C2 (counterexample): when the LLM output parses into a schema-valid plan
whose lists are empty, `_generate_learning_plan` of `ai_planning_dict.py`
returns it unchanged, so the returned plan can have an empty `modules` list
and an empty `kanban_tasks` list. -/
theorem c2_counterexample :
    (generateLearningPlanDict [] (Except.ok emptyParsedPlan)).modules = [] ∧
    (generateLearningPlanDict [] (Except.ok emptyParsedPlan)).kanban_tasks = [] :=
  ⟨rfl, rfl⟩

/-- C2 (amended): plan generation never raises to its caller for any profile
and any LLM outcome (the model is total because the source catches every
exception); when the LLM path fails it falls back to the deterministic
template plan, whose modules (3) and kanban tasks (2) are non-empty; a
successfully parsed LLM plan is returned as-is, even with empty lists; and
the purely deterministic generator of `ai_planning_agent.py` always stores a
plan with 3 modules and 3 kanban tasks. -/
theorem c2_generate_plan_fallback (requirements : Dict) (e : String)
    (p : DPlan) (s : ASession) (prm : Option String) :
    generateLearningPlanDict requirements (Except.error e) =
      generateFallbackPlan requirements ∧
    (generateFallbackPlan requirements).modules.length = 3 ∧
    (generateFallbackPlan requirements).kanban_tasks.length = 2 ∧
    generateLearningPlanDict requirements (Except.ok p) = p ∧
    (∃ q, (generateLearningPlanA s prm).1.learning_plan = some q ∧
      q.modules.length = 3 ∧ q.kanban_tasks.length = 3) := by
  refine ⟨rfl, rfl, rfl, rfl, ?_⟩
  exact ⟨_, rfl, rfl, rfl⟩

/-- The first message of the C7 scenario. -/
def c7Message : String :=
  "I want to learn Python, I\x27m a beginner, I prefer hands-on projects"

/-- A fresh session as created by `get_or_create_session`
(`ai_planning_agent.py`). -/
def freshASession (sid : String) : ASession :=
  { session_id := sid, stage := .initial, raw_data := [],
    conversation_history := [], learning_plan := none }

/-- The C7 scenario, first turn: the message processed by a fresh session
with a successful LLM call. -/
def c7Turn1 : ASession × AReturn :=
  processMessageA (freshASession "s") c7Message (Except.ok "r1") none

/-- The C7 scenario, second turn: the same message processed again. -/
def c7Turn2 : ASession × AReturn :=
  processMessageA c7Turn1.1 c7Message (Except.ok "r2") none

/-- C7 (counterexample): after the first message the profile holds only the
subject ("python" — the INITIAL handler extracts no experience or learning
style) and the session is in GATHERING, not at plan generation. -/
theorem c7_counterexample :
    c7Turn1.1.stage = AStage.gathering ∧
    dictGet c7Turn1.1.raw_data "subject" = some "python" ∧
    dictGet c7Turn1.1.raw_data "experience" = none ∧
    dictGet c7Turn1.1.raw_data "learning_style" = none := by
  refine ⟨?_, ?_, ?_, ?_⟩ <;> decide

/-- C7 (amended): the first message moves the fresh session to GATHERING
with subject "python" only; processing the same message again in GATHERING
extracts experience "beginner" and learning style "hands-on", reaching three
profile fields, and transitions through PLANNING to COMPLETE with a
generated plan within that second turn. -/
theorem c7_two_turn_scenario :
    c7Turn1.1.stage = AStage.gathering ∧
    dictGet c7Turn1.1.raw_data "subject" = some "python" ∧
    dictGet c7Turn2.1.raw_data "subject" = some "python" ∧
    dictGet c7Turn2.1.raw_data "experience" = some "beginner" ∧
    dictGet c7Turn2.1.raw_data "learning_style" = some "hands-on" ∧
    c7Turn2.1.stage = AStage.complete ∧
    c7Turn2.1.learning_plan.isSome = true := by
  refine ⟨?_, ?_, ?_, ?_, ?_, ?_, ?_⟩ <;> decide

/-- The plan generator of `ai_planning_agent.py` always leaves the session
in the COMPLETE stage. -/
theorem generateLearningPlanA_stage (t : ASession) (prm : Option String) :
    (generateLearningPlanA t prm).1.stage = AStage.complete := rfl

/-- The `process_message` of `ai_planning_agent.py` never lowers the stage
rank of the session it processes. -/
theorem processMessageA_stage_monotone (s : ASession) (message : String)
    (llm : Except Unit String) (prm : Option String) :
    s.stage.rank ≤ ((processMessageA s message llm prm).1.stage).rank := by
  cases hs : s.stage
  case initial =>
    rcases llm with e | r
    · simp [processMessageA, hs, handleInitialA, AStage.rank]
    · simp only [processMessageA, hs, handleInitialA]
      cases hfind : agentSubjects.find? (fun subj => pyIn subj (pyLower message)) <;>
        simp [AStage.rank]
  case gathering =>
    rcases llm with e | r
    · simp [processMessageA, hs, handleGatheringA, AStage.rank]
    · simp only [processMessageA, hs, handleGatheringA]
      split
      · simp [generateLearningPlanA_stage, AStage.rank]
      · simp [hs, AStage.rank]
  case planning =>
    simp [processMessageA, hs, handlePlanGenerationA,
      generateLearningPlanA_stage, AStage.rank]
  case complete =>
    simp [processMessageA, hs, handleCompleteA, AStage.rank]

/-! ## The conversational chat system of `conversational_chat.py` (machine B) -/

/-- Python truthiness of an optional string (None and "" are falsy). -/
def optTruthy : Option String → Bool
  | none => false
  | some s => s != ""

/-- Model of `o or d` for an optional string. -/
def pyOrStr (o : Option String) (d : String) : String :=
  match o with
  | none => d
  | some s => if s = "" then d else s

/-- Stages of `ConversationStage` in `conversational_chat.py`. -/
inductive BStage where
  | greeting
  | requirements_gathering
  | plan_presentation
  | plan_approval
  | teaching
  | assessment
  | completed
deriving DecidableEq, Repr

/-- Position of a stage in the fixed forward sequence. -/
def BStage.rank : BStage → Nat
  | .greeting => 0
  | .requirements_gathering => 1
  | .plan_presentation => 2
  | .plan_approval => 3
  | .teaching => 4
  | .assessment => 5
  | .completed => 6

/-- The `.value` string of a stage. -/
def BStage.value : BStage → String
  | .greeting => "greeting"
  | .requirements_gathering => "requirements_gathering"
  | .plan_presentation => "plan_presentation"
  | .plan_approval => "plan_approval"
  | .teaching => "teaching"
  | .assessment => "assessment"
  | .completed => "completed"

/-- The `UserRequirements` dataclass. -/
structure BRequirements where
  subject : Option String := none
  learning_style : Option String := none
  difficulty_level : Option String := none
  timeline : Option String := none
  specific_goals : List String := []
  experience_level : Option String := none
  time_commitment : Option String := none
  preferred_format : Option String := none
deriving DecidableEq, Repr

/-- The `LearningModule` dataclass of `conversational_chat.py`. -/
structure BModule where
  title : String
  description : String
  duration : String
  key_concepts : List String
  activities : List String
  completed : Bool := false
deriving DecidableEq, Repr

/-- The `LearningPlan` dataclass of `conversational_chat.py` (the
timestamp-bearing `plan_id` is omitted). -/
structure BPlan where
  title : String
  description : String
  modules : List BModule
  total_duration : String
  difficulty : String
  learning_style : String
  approved : Bool := false
deriving DecidableEq, Repr

/-- A `ConversationSession` (timestamps omitted). -/
structure BSession where
  session_id : String
  stage : BStage
  requirements : BRequirements
  learning_plan : Option BPlan := none
  current_module_index : Nat := 0
  current_lesson_step : Nat := 0
  conversation_history : List (String × String) := []
deriving DecidableEq, Repr

/-- Python exceptions raised by the handlers and by `process_message`. -/
inductive PyErr where
  | keyError (k : String)
  | attributeError
  | indexError
deriving DecidableEq, Repr

/-- What a handler hands back to `process_message`: every handler returns a
dict with a "message" key except the new-journey branch of
`_handle_completed`, which returns a response-shaped dict with keys
"response"/"session_id"/"stage" and no "message" key. Metadata is omitted. -/
inductive BHandlerRet where
  | normal (message : String)
  | newJourney (response : String) (session_id : String) (stage : String)
deriving DecidableEq, Repr

/-- The ordered `learning_topics` mapping of `_handle_greeting`. -/
def learningTopics : List (String × List String) :=
  [ ("generative ai", ["generative ai", "gen ai", "generative artificial intelligence"])
  , ("data science", ["data science", "data analysis", "machine learning", "ml"])
  , ("programming", ["programming", "coding", "code", "python", "javascript", "java"])
  , ("web development", ["web dev", "web development", "html", "css", "react", "frontend"])
  , ("artificial intelligence", ["ai", "artificial intelligence", "machine learning"]) ]

/-- Model of `_handle_greeting`: detect a subject from the first message; in
both branches the stage advances to REQUIREMENTS_GATHERING. Reply prose is
abbreviated. -/
def handleGreetingB (s : BSession) (message : String) : BHandlerRet × BSession :=
  let ml := pyLower message
  match learningTopics.find? (fun t => anyIn t.2 ml) with
  | some t =>
      let s1 := { s with
        requirements := { s.requirements with subject := some t.1 },
        stage := .requirements_gathering }
      let reply :=
        if pyIn "generative ai" (pyLower t.1) then
          "GREETING_GENAI_BACKGROUND_PROMPT"
        else
          "GREETING_EXPERIENCE_PROMPT " ++ pyTitle t.1
      (.normal reply, s1)
  | none =>
      (.normal "GREETING_ASK_SUBJECT", { s with stage := .requirements_gathering })

/-- Model of `_extract_requirements_from_message`: three guarded blocks over
the lowercased message (experience/difficulty pair, learning style,
timeline). -/
def extractRequirementsB (req : BRequirements) (message : String) : BRequirements :=
  let ml := pyLower message
  let r1 :=
    if !optTruthy req.difficulty_level && !optTruthy req.experience_level then
      if anyIn ["new to this", "beginner", "never", "starting", "complete beginner"] ml then
        { req with difficulty_level := some "beginner", experience_level := some "none" }
      else if anyIn ["used chatgpt", "used ai", "familiar with ai", "some experience"] ml then
        { req with difficulty_level := some "beginner", experience_level := some "some" }
      else if anyIn ["can code", "programming", "developer", "experienced"] ml then
        { req with difficulty_level := some "intermediate", experience_level := some "experienced" }
      else if anyIn ["already in tech", "advanced", "expert"] ml then
        { req with difficulty_level := some "advanced", experience_level := some "experienced" }
      else req
    else req
  let r2 :=
    if !optTruthy r1.learning_style then
      if anyIn ["hands-on", "projects", "build", "practical"] ml then
        { r1 with learning_style := some "hands-on" }
      else if anyIn ["step-by-step", "tutorials", "structured", "guided"] ml then
        { r1 with learning_style := some "visual" }
      else if anyIn ["theory", "concepts", "understand deeply", "reading"] ml then
        { r1 with learning_style := some "reading" }
      else if anyIn ["mixed", "combination", "everything"] ml then
        { r1 with learning_style := some "mixed" }
      else r1
    else r1
  if !optTruthy r2.timeline then
    if anyIn ["quick", "fast", "weeks", "month"] ml then
      { r2 with timeline := some "4-6 weeks" }
    else if anyIn ["slowly", "months", "long term"] ml then
      { r2 with timeline := some "3-6 months" }
    else r2
  else r2

/-- The generative-AI module list for a complete beginner
(`_create_learning_plan`, `experience_level == "none"` branch). -/
def genAIBeginnerModules : List BModule :=
  [ { title := "AI Fundamentals & Tools"
    , description := "Understand how AI works and master essential tools"
    , duration := "1-2 weeks"
    , key_concepts := ["What is AI & Machine Learning", "ChatGPT & Claude Deep Dive", "Prompt Engineering Basics", "AI Ethics & Limitations"]
    , activities := ["Hands-on prompt experiments", "AI tool comparison", "Build your first AI workflow"] }
  , { title := "Building with AI APIs"
    , description := "Create real applications using AI APIs"
    , duration := "2-3 weeks"
    , key_concepts := ["OpenAI API Setup", "Building Chat Applications", "Image Generation with DALL-E", "Text Analysis & Summarization"]
    , activities := ["Build a personal AI assistant", "Create an AI image generator", "Text summarization tool"] }
  , { title := "Advanced AI Applications"
    , description := "Master advanced techniques and build portfolio projects"
    , duration := "2-4 weeks"
    , key_concepts := ["Fine-tuning Models", "RAG (Retrieval Augmented Generation)", "AI Agents & Workflows", "Deployment & Scaling"]
    , activities := ["Build a knowledge base chatbot", "Create an AI research assistant", "Deploy your AI app"] } ]

/-- The generative-AI module list for experienced users. -/
def genAIAdvancedModules : List BModule :=
  [ { title := "AI Architecture & APIs"
    , description := "Deep dive into LLMs and practical implementation"
    , duration := "1-2 weeks"
    , key_concepts := ["Transformer Architecture", "OpenAI vs Anthropic vs Open Source", "API Integration Patterns", "Cost Optimization"]
    , activities := ["API comparison project", "Cost analysis tool", "Multi-model application"] }
  , { title := "Advanced AI Techniques"
    , description := "Master cutting-edge AI development practices"
    , duration := "2-3 weeks"
    , key_concepts := ["RAG Implementation", "Vector Databases", "AI Agents & Tool Use", "Fine-tuning Strategies"]
    , activities := ["Build enterprise RAG system", "Create multi-agent workflow", "Custom model fine-tuning"] }
  , { title := "Production AI Systems"
    , description := "Scale and deploy AI applications professionally"
    , duration := "2-3 weeks"
    , key_concepts := ["MLOps for LLMs", "Monitoring & Evaluation", "Security & Privacy", "Enterprise Integration"]
    , activities := ["Production deployment", "Monitoring dashboard", "Security audit"] } ]

/-- The generic module list for other subjects, parameterized by the
subject name. -/
def genericModules (subject_name : String) : List BModule :=
  [ { title := subject_name ++ " Foundations"
    , description := "Master the core concepts of " ++ pyLower subject_name
    , duration := "2-3 weeks"
    , key_concepts := ["Fundamentals", "Key Principles", "Essential Tools", "Best Practices"]
    , activities := ["Guided tutorials", "Practice exercises", "Real-world examples"] }
  , { title := "Practical " ++ subject_name
    , description := "Apply " ++ pyLower subject_name ++ " skills to real projects"
    , duration := "3-4 weeks"
    , key_concepts := ["Advanced Concepts", "Project Work", "Problem Solving", "Industry Applications"]
    , activities := ["Hands-on projects", "Case studies", "Portfolio building"] }
  , { title := "Mastering " ++ subject_name
    , description := "Become an expert in " ++ pyLower subject_name
    , duration := "2-4 weeks"
    , key_concepts := ["Expert Techniques", "Optimization", "Advanced Applications", "Career Development"]
    , activities := ["Capstone project", "Community engagement", "Professional development"] } ]

/-- Model of `_create_learning_plan`: purely deterministic; chooses a module
list from the requirements, stores the plan and moves the stage to
PLAN_APPROVAL. The plan-presentation prose is abbreviated. -/
def createLearningPlanB (s : BSession) : BHandlerRet × BSession :=
  let req := s.requirements
  let modules :=
    if optTruthy req.subject && pyIn "generative ai" (pyLower (req.subject.getD "")) then
      if req.experience_level = some "none" then genAIBeginnerModules
      else genAIAdvancedModules
    else genericModules (pyOrStr req.subject "Your Topic")
  let plan : BPlan :=
    { title := "Master " ++ pyOrStr req.subject "Your Chosen Topic"
    , description := "A comprehensive " ++ pyOrStr req.difficulty_level "personalized" ++ " learning journey"
    , modules := modules
    , total_duration := pyOrStr req.timeline "5-10 weeks"
    , difficulty := pyOrStr req.difficulty_level "beginner"
    , learning_style := pyOrStr req.learning_style "hands-on"
    , approved := false }
  let s1 := { s with learning_plan := some plan, stage := .plan_approval }
  (.normal ("PLAN_PRESENTATION " ++ pyOrStr req.subject "Learning"), s1)

/-- Model of `_handle_requirements_gathering`: extract, then either create
the plan (enough information, or the final fallback `else`) or ask for what
is missing. -/
def handleRequirementsB (s : BSession) (message : String) : BHandlerRet × BSession :=
  let s1 := { s with requirements := extractRequirementsB s.requirements message }
  let req := s1.requirements
  if optTruthy req.subject && optTruthy req.difficulty_level &&
      (optTruthy req.learning_style || optTruthy req.experience_level) then
    createLearningPlanB { s1 with stage := .plan_presentation }
  else if !optTruthy req.difficulty_level && !optTruthy req.experience_level then
    (.normal
      (if pyIn "generative ai" (pyLower (pyOrStr req.subject "")) then
        "ASK_BACKGROUND_GENAI"
      else "ASK_EXPERIENCE " ++ pyOrStr req.subject "this topic"), s1)
  else if !optTruthy req.learning_style then
    (.normal "ASK_LEARNING_STYLE", s1)
  else
    createLearningPlanB { s1 with stage := .plan_presentation }

/-- Model of `_get_first_lesson_content`: guarded lookups except the module
index, which can raise IndexError. Lesson prose is abbreviated. -/
def firstLessonContentB (s : BSession) : Except PyErr String :=
  match s.learning_plan with
  | none => .ok "Let\x27s start with the basics!"
  | some plan =>
      if plan.modules.isEmpty then .ok "Let\x27s start with the basics!"
      else
        match plan.modules.get? s.current_module_index with
        | none => .error .indexError
        | some m =>
            let firstConcept :=
              if m.key_concepts.isEmpty then "the fundamentals" else m.key_concepts.headI
            let subject := pyOrStr s.requirements.subject "this topic"
            .ok (if pyIn "programming" (pyLower subject) then
              "LESSON_PROGRAMMING " ++ firstConcept
            else "LESSON_GENERIC " ++ firstConcept ++ " " ++ subject)

/-- Model of `_handle_plan_approval` (and `_handle_plan_presentation`, which
delegates to it). On approval words: `learning_plan.approved = True` raises
AttributeError when the plan is None (stage unchanged); then the stage moves
to TEACHING and the lesson indices reset; then `modules[0]` and the
interpolation `first_module.key_concepts[0]` can raise IndexError (stage
already TEACHING). Reply prose is abbreviated. -/
def handlePlanApprovalB (s : BSession) (message : String) :
    Except PyErr BHandlerRet × BSession :=
  let ml := pyLower message
  if anyIn ["approve", "start", "begin", "yes", "looks good", "perfect"] ml then
    match s.learning_plan with
    | none => (.error .attributeError, s)
    | some plan =>
        let s1 := { s with
          learning_plan := some { plan with approved := true },
          stage := .teaching,
          current_module_index := 0,
          current_lesson_step := 0 }
        match plan.modules.head? with
        | none => (.error .indexError, s1)
        | some m0 =>
            match m0.key_concepts.head? with
            | none => (.error .indexError, s1)
            | some c0 =>
                match firstLessonContentB s1 with
                | .error e => (.error e, s1)
                | .ok lesson =>
                    (.ok (.normal ("TEACHING_STARTED " ++ m0.title ++ " " ++ c0 ++ " " ++ lesson)), s1)
  else if anyIn ["change", "modify", "different", "adjust"] ml then
    (.ok (.normal "MODIFY_PROMPT"), s)
  else
    (.ok (.normal "APPROVAL_UNCLEAR"), s)

/-- Model of `_get_lesson_content`: a total dictionary lookup with a default
sentence; prose is abbreviated to the concept. -/
def lessonContentB (concept : String) : String :=
  "LESSON_CONTENT " ++ concept

/-- Model of `_handle_course_completion`: the stage is set to COMPLETED
first; reading `learning_plan.modules` then raises AttributeError when the
plan is None. -/
def courseCompletionB (s : BSession) : Except PyErr BHandlerRet × BSession :=
  let s1 := { s with stage := .completed }
  match s1.learning_plan with
  | none => (.error .attributeError, s1)
  | some plan =>
      (.ok (.normal ("COURSE_COMPLETE " ++
        toString (plan.modules.filter (fun m => m.completed)).length)), s1)

/-- Model of `_advance_lesson`, called with the validated current module:
the lesson step is incremented first; completing the last module moves the
stage to COMPLETED via course completion; moving to the next module reads
`next_module.key_concepts[0]`, which can raise IndexError. -/
def advanceLessonB (s : BSession) (plan : BPlan) (currentModule : BModule) :
    Except PyErr BHandlerRet × BSession :=
  let step1 := s.current_lesson_step + 1
  if step1 ≥ currentModule.key_concepts.length then
    let newModules :=
      plan.modules.set s.current_module_index ({ currentModule with completed := true })
    let plan1 := { plan with modules := newModules }
    let s1 := { s with learning_plan := some plan1, current_lesson_step := step1 }
    if (s.current_module_index : Int) ≥ (plan1.modules.length : Int) - 1 then
      courseCompletionB s1
    else
      let idx2 := s.current_module_index + 1
      let s2 := { s1 with current_module_index := idx2, current_lesson_step := 0 }
      match plan1.modules.get? idx2 with
      | none => (.error .indexError, s2)
      | some nextModule =>
          match nextModule.key_concepts.head? with
          | none => (.error .indexError, s2)
          | some c0 =>
              (.ok (.normal ("MODULE_COMPLETE " ++ nextModule.title ++ " " ++
                lessonContentB c0)), s2)
  else
    let s1 := { s with current_lesson_step := step1 }
    match currentModule.key_concepts.get? step1 with
    | none => (.error .indexError, s1)
    | some nextConcept =>
        (.ok (.normal ("NEXT_CONCEPT " ++ nextConcept ++ " " ++
          lessonContentB nextConcept)), s1)

/-- Model of `_answer_teaching_question`, reached with the validated current
module: the LLM failure is caught and a fallback reply substituted; no state
change, no raise. -/
def answerTeachingQuestionB (s : BSession) (currentModule : BModule)
    (llm : Except Unit String) : BHandlerRet :=
  let currentConcept :=
    if s.current_lesson_step < currentModule.key_concepts.length then
      currentModule.key_concepts.getD s.current_lesson_step ""
    else "current topic"
  match llm with
  | .ok content =>
      .normal (content ++ "\n\nDoes that help clarify things? [abbreviated]")
  | .error _ => .normal ("FALLBACK_ANSWER " ++ currentConcept)

/-- Model of `_handle_teaching`: a missing or empty plan yields the error
reply; `modules[current_module_index]` can raise IndexError; then the
message is routed to continue/question/understanding branches. -/
def handleTeachingB (s : BSession) (message : String)
    (llm : Except Unit String) : Except PyErr BHandlerRet × BSession :=
  let ml := pyLower message
  match s.learning_plan with
  | none =>
      (.ok (.normal "Something went wrong with your learning plan. Let\x27s restart!"), s)
  | some plan =>
      if plan.modules.isEmpty then
        (.ok (.normal "Something went wrong with your learning plan. Let\x27s restart!"), s)
      else
        match plan.modules.get? s.current_module_index with
        | none => (.error .indexError, s)
        | some currentModule =>
            if anyIn ["continue", "next", "proceed", "move on"] ml then
              advanceLessonB s plan currentModule
            else if anyIn ["what", "how", "why", "explain", "help", "?"] ml then
              (.ok (answerTeachingQuestionB s currentModule llm), s)
            else if anyIn ["got it", "understand", "clear", "makes sense", "ready"] ml then
              (.ok (.normal ("PRACTICE_PROMPT " ++
                (if s.current_lesson_step < currentModule.key_concepts.length then
                  currentModule.key_concepts.getD s.current_lesson_step ""
                else "this concept"))), s)
            else
              (.ok (.normal ("TEACHING_GUIDANCE " ++ currentModule.title)), s)

/-- Model of `_handle_completed`: on a new-journey keyword a fresh GREETING
session with empty requirements is created and stored (returned as the third
component), and the handler returns the response-shaped dict with the new
session id but no "message" key. -/
def handleCompletedB (s : BSession) (message : String) (freshId : String) :
    BHandlerRet × BSession × Option BSession :=
  let ml := pyLower message
  if anyIn ["new", "start", "another", "different", "learn"] ml then
    let newSession : BSession :=
      { session_id := freshId, stage := .greeting, requirements := {} }
    (.newJourney
      "Excellent! I\x27m excited to help you learn something new! [abbreviated] What subject or skill would you like to explore this time?"
      freshId "greeting", s, some newSession)
  else
    (.normal "AWAITING_NEW_TOPIC", s, none)

/-- The dictionary returned by `process_message` (`conversational_chat.py`),
timestamp and metadata omitted. -/
structure BReturn where
  response : String
  session_id : String
  stage : String
deriving DecidableEq, Repr

/-- Lines 155-167 of `process_message` (`conversational_chat.py`): a raise
propagates; a handler dict with a "message" key has the reply appended to
the history and the return dictionary built; the response-shaped dict of
the completed-stage handler has no "message" key, so the history append
raises `KeyError("message")`. -/
def finishMessageB
    (step : Except PyErr BHandlerRet × BSession × Option BSession) :
    Except PyErr BReturn × BSession × Option BSession :=
  match step.1 with
  | .error e => (.error e, step.2.1, step.2.2)
  | .ok (.newJourney _ _ _) => (.error (.keyError "message"), step.2.1, step.2.2)
  | .ok (.normal msg) =>
      let s2 := { step.2.1 with conversation_history :=
        step.2.1.conversation_history ++ [("ai", msg)] }
      (.ok { response := msg, session_id := s2.session_id, stage := s2.stage.value },
       s2, step.2.2)

/-- Model of `ConversationalChatSystem.process_message` acting on a given
session: append the user message, dispatch on the stage, finish via
`finishMessageB`. A raise leaves the session as mutated so far (user message
appended, handler mutations applied, AI reply not appended). The third
component is the session spawned by `_handle_completed`, if any. -/
def processMessageB (s : BSession) (message : String)
    (llm : Except Unit String) (freshId : String) :
    Except PyErr BReturn × BSession × Option BSession :=
  let s0 := { s with conversation_history :=
      s.conversation_history ++ [("user", message)] }
  let step :=
    match s0.stage with
    | .greeting =>
        let r := handleGreetingB s0 message
        (Except.ok r.1, r.2, (none : Option BSession))
    | .requirements_gathering =>
        let r := handleRequirementsB s0 message
        (Except.ok r.1, r.2, none)
    | .plan_presentation =>
        let r := handlePlanApprovalB s0 message
        (r.1, r.2, none)
    | .plan_approval =>
        let r := handlePlanApprovalB s0 message
        (r.1, r.2, none)
    | .teaching =>
        let r := handleTeachingB s0 message llm
        (r.1, r.2, none)
    | .assessment =>
        let r := courseCompletionB s0
        (r.1, r.2, none)
    | .completed =>
        let r := handleCompletedB s0 message freshId
        (Except.ok r.1, r.2.1, r.2.2)
  finishMessageB step

/-- The session store of the chat system. -/
abbrev BStore := List (String × BSession)

/-- Binding update for the store (same semantics as `dictInsert`). -/
def storeInsert (st : BStore) (k : String) (v : BSession) : BStore :=
  if (st.find? (fun p => p.1 == k)).isSome then
    st.map (fun p => if p.1 == k then (p.1, v) else p)
  else st ++ [(k, v)]

/-- Model of `get_or_create_session`: an existing truthy id is looked up;
otherwise a fresh GREETING session is created under the given id (or the
fresh uuid when the id is falsy) and stored. -/
def getOrCreateSessionB (store : BStore) (sid : Option String)
    (freshId : String) : BSession × BStore :=
  let existing :=
    match sid with
    | some i =>
        if i = "" then none
        else (store.find? (fun p => p.1 == i)).map Prod.snd
    | none => none
  match existing with
  | some sess => (sess, store)
  | none =>
      let newId := pyOrStr sid freshId
      let sess : BSession := { session_id := newId, stage := .greeting, requirements := {} }
      (sess, storeInsert store newId sess)

/-- Model of one `process_message` call at the store level: look the session
up (or create it), process the message, and reflect the in-place mutations:
the processed session at its id, then any session spawned by
`_handle_completed` at its own id. -/
def chatSystemProcess (store : BStore) (message : String) (sid : Option String)
    (llm : Except Unit String) (fresh1 fresh2 : String) :
    Except PyErr BReturn × BStore :=
  let g := getOrCreateSessionB store sid fresh1
  let r := processMessageB g.1 message llm fresh2
  let store2 := storeInsert g.2 r.2.1.session_id r.2.1
  let store3 :=
    match r.2.2 with
    | some ns => storeInsert store2 ns.session_id ns
    | none => store2
  (r.1, store3)

/-! ## Stage monotonicity of machine B (claim C1) -/

/-- The finishing step never changes the stage of the processed session. -/
theorem finishMessageB_stage
    (step : Except PyErr BHandlerRet × BSession × Option BSession) :
    (finishMessageB step).2.1.stage = step.2.1.stage := by
  rcases step with ⟨e, t, sp⟩
  rcases e with e | ret
  · rfl
  · cases ret <;> rfl

/-- The greeting handler always moves to REQUIREMENTS_GATHERING. -/
theorem handleGreetingB_stage (s : BSession) (m : String) :
    (handleGreetingB s m).2.stage = BStage.requirements_gathering := by
  unfold handleGreetingB
  dsimp only
  split <;> rfl

/-- The plan creator always moves to PLAN_APPROVAL. -/
theorem createLearningPlanB_stage (s : BSession) :
    (createLearningPlanB s).2.stage = BStage.plan_approval := rfl

/-- The requirements handler either keeps the stage or reaches
PLAN_APPROVAL through plan creation. -/
theorem handleRequirementsB_stage (s : BSession) (m : String) :
    (handleRequirementsB s m).2.stage = s.stage ∨
    (handleRequirementsB s m).2.stage = BStage.plan_approval := by
  unfold handleRequirementsB
  dsimp only
  split_ifs <;>
    first
      | exact Or.inl rfl
      | exact Or.inr (createLearningPlanB_stage _)

/-- Course completion always ends in COMPLETED, raise or not. -/
theorem courseCompletionB_stage (s : BSession) :
    (courseCompletionB s).2.stage = BStage.completed := by
  unfold courseCompletionB
  dsimp only
  split <;> rfl

/-- Advancing a lesson keeps the stage or reaches COMPLETED. -/
theorem advanceLessonB_stage (s : BSession) (plan : BPlan) (m : BModule) :
    (advanceLessonB s plan m).2.stage = s.stage ∨
    (advanceLessonB s plan m).2.stage = BStage.completed := by
  unfold advanceLessonB
  dsimp only
  split_ifs
  · exact Or.inr (courseCompletionB_stage _)
  · split
    · exact Or.inl rfl
    · split <;> exact Or.inl rfl
  · split <;> exact Or.inl rfl

/-- The teaching handler keeps the stage or reaches COMPLETED. -/
theorem handleTeachingB_stage (s : BSession) (m : String)
    (llm : Except Unit String) :
    (handleTeachingB s m llm).2.stage = s.stage ∨
    (handleTeachingB s m llm).2.stage = BStage.completed := by
  unfold handleTeachingB
  dsimp only
  split
  · exact Or.inl rfl
  · split
    · exact Or.inl rfl
    · split
      · exact Or.inl rfl
      · split
        · exact advanceLessonB_stage _ _ _
        · split
          · exact Or.inl rfl
          · split
            · exact Or.inl rfl
            · exact Or.inl rfl

/-- The approval handler keeps the stage or reaches TEACHING. -/
theorem handlePlanApprovalB_stage (s : BSession) (m : String) :
    (handlePlanApprovalB s m).2.stage = s.stage ∨
    (handlePlanApprovalB s m).2.stage = BStage.teaching := by
  unfold handlePlanApprovalB
  dsimp only
  split_ifs
  · split
    · exact Or.inl rfl
    · split
      · exact Or.inr rfl
      · split
        · exact Or.inr rfl
        · split <;> exact Or.inr rfl
  · exact Or.inl rfl
  · exact Or.inl rfl

/-- The completed handler never changes the stage of the old session. -/
theorem handleCompletedB_stage (s : BSession) (m f : String) :
    (handleCompletedB s m f).2.1.stage = s.stage := by
  unfold handleCompletedB
  dsimp only
  split_ifs <;> rfl

/-- The `process_message` of `conversational_chat.py` never lowers the
stage rank of the session it processes, also on the paths that raise. -/
theorem processMessageB_stage_monotone (s : BSession) (message : String)
    (llm : Except Unit String) (freshId : String) :
    s.stage.rank ≤ ((processMessageB s message llm freshId).2.1.stage).rank := by
  unfold processMessageB
  dsimp only
  rw [finishMessageB_stage]
  generalize ht :
    ({ s with conversation_history :=
        s.conversation_history ++ [("user", message)] } : BSession) = t
  have hstage : t.stage = s.stage := by rw [← ht]
  rw [← hstage]
  cases hts : t.stage
  case greeting =>
    rw [handleGreetingB_stage]
    simp [BStage.rank]
  case requirements_gathering =>
    rcases handleRequirementsB_stage t message with h | h
    · rw [h, hts]
    · rw [h]
      simp [BStage.rank]
  case plan_presentation =>
    rcases handlePlanApprovalB_stage t message with h | h
    · rw [h, hts]
    · rw [h]
      simp [BStage.rank]
  case plan_approval =>
    rcases handlePlanApprovalB_stage t message with h | h
    · rw [h, hts]
    · rw [h]
      simp [BStage.rank]
  case teaching =>
    rcases handleTeachingB_stage t message llm with h | h
    · rw [h, hts]
    · rw [h]
      simp [BStage.rank]
  case assessment =>
    rw [courseCompletionB_stage]
    simp [BStage.rank]
  case completed =>
    rw [handleCompletedB_stage, hts]

/-- C1: for every session and every call to `process_message`, the stage
after the call is the same as or later than the stage before it in the fixed
forward sequence of its agent — INITIAL through COMPLETE for
`ai_planning_agent.py`, GREETING through COMPLETED for
`conversational_chat.py` — for every message, LLM outcome and auxiliary
argument, including the paths that raise. -/
theorem c1_stage_monotone :
    (∀ (s : ASession) (message : String) (llm : Except Unit String)
        (planReadyMessage : Option String),
        s.stage.rank ≤ ((processMessageA s message llm planReadyMessage).1.stage).rank) ∧
    (∀ (s : BSession) (message : String) (llm : Except Unit String)
        (freshId : String),
        s.stage.rank ≤ ((processMessageB s message llm freshId).2.1.stage).rank) :=
  ⟨processMessageA_stage_monotone, processMessageB_stage_monotone⟩

/-! ## Claim C6 -/

/-- A session that has reached the terminal COMPLETED stage. -/
def c6Session : BSession :=
  { session_id := "old", stage := .completed, requirements := {} }

/-- C6 (code evaluated at the failing input): with a COMPLETED session and
the message "new", a fresh GREETING session with empty requirements is
created and stored under the fresh id, and the old session stage is not
regressed — but `process_message` raises `KeyError("message")` instead of
returning a reply carrying the new session identifier, because the
new-journey branch of `_handle_completed` returns a dict with a "response"
key where `process_message` reads `response["message"]`. -/
theorem c6_new_journey_keyerror :
    (chatSystemProcess [("old", c6Session)] "new" (some "old")
        (Except.ok "x") "f1" "f2").1 = Except.error (PyErr.keyError "message") ∧
    ((chatSystemProcess [("old", c6Session)] "new" (some "old")
        (Except.ok "x") "f1" "f2").2.find? (fun p => p.1 == "f2")).map
      (fun p => (p.2.session_id, p.2.stage, p.2.requirements, p.2.learning_plan)) =
      some ("f2", BStage.greeting, ({} : BRequirements), none) ∧
    ((chatSystemProcess [("old", c6Session)] "new" (some "old")
        (Except.ok "x") "f1" "f2").2.find? (fun p => p.1 == "old")).map
      (fun p => p.2.stage) = some BStage.completed := by
  refine ⟨rfl, ?_, ?_⟩ <;> decide

/-! ## The code-execution endpoint (`api_server.py`, claim C8) -/

/-- Outcome of one `subprocess.run` call: completion with captured streams
and a return code, the 15-second `TimeoutExpired`, or any other raised
exception. -/
inductive ProcOutcome where
  | completed (stdout stderr : String) (returncode : Int)
  | timedOut
  | raised (msg : String)
deriving DecidableEq, Repr

/-- The result dictionary of the endpoint: exactly the four fields every
return statement of `_run_code_subprocess` and `execute_code` carries. -/
structure CodeResult where
  success : Bool
  stdout : String
  stderr : String
  exit_code : Int
deriving DecidableEq, Repr

/-- Exceptions `_run_code_subprocess` lets escape to `execute_code`. -/
inductive ExecErr where
  | timeout
  | other (msg : String)
deriving DecidableEq, Repr

/-- The supported-language set of `_run_code_subprocess` (a Python set
literal). -/
def supportedLangs : List String := ["python", "java", "c", "cpp", "javascript"]

/-- The `", ".join(supported)` text. CPython iterates the set in a
hash-dependent order; one fixed order is used here and the claims only rely
on the message being non-empty. -/
def supportedJoined : String := "python, java, c, cpp, javascript"

/-- Model of `_run_code_subprocess` (`api_server.py`): the oracle arguments
are the outcomes of the first and (for compiled languages) second
`subprocess.run` call. A `TimeoutExpired` or other exception propagates to
the caller; file-system work in the temp directory is invisible to the
result and omitted. -/
def runCodeSubprocess (language code : String) (proc1 proc2 : ProcOutcome) :
    Except ExecErr CodeResult :=
  if !(supportedLangs.contains language) then
    .ok { success := false, stdout := ""
        , stderr := "Unsupported language: " ++ language ++ ". Use one of: " ++ supportedJoined
        , exit_code := -1 }
  else if language = "python" || language = "javascript" then
    match proc1 with
    | .timedOut => .error .timeout
    | .raised m => .error (.other m)
    | .completed out err rc =>
        .ok { success := rc == 0, stdout := pyStrip out, stderr := pyStrip err,
              exit_code := rc }
  else
    match proc1 with
    | .timedOut => .error .timeout
    | .raised m => .error (.other m)
    | .completed cout cerr crc =>
        if crc != 0 then
          .ok { success := false, stdout := pyStrip cout, stderr := pyStrip cerr,
                exit_code := crc }
        else
          match proc2 with
          | .timedOut => .error .timeout
          | .raised m => .error (.other m)
          | .completed out err rc =>
              .ok { success := rc == 0, stdout := pyStrip out, stderr := pyStrip err,
                    exit_code := rc }

/-- Model of the `POST /teaching/execute-code` handler `execute_code`
(`api_server.py`): normalize the language (`or "python"`, strip, lower),
reject empty code, run, and catch `TimeoutExpired` and every other
exception into a failure result — the function is total, so no exception
propagates to the framework. -/
def executeCode (language code : Option String) (proc1 proc2 : ProcOutcome) :
    CodeResult :=
  let lang := pyLower (pyStrip (pyOrStr language "python"))
  let codeStr := code.getD ""
  if pyStrip codeStr = "" then
    { success := false, stdout := "", stderr := "No code to run.", exit_code := -1 }
  else
    match runCodeSubprocess lang codeStr proc1 proc2 with
    | .ok r => r
    | .error .timeout =>
        { success := false, stdout := "", stderr := "Run timed out (max 15s).", exit_code := -1 }
    | .error (.other m) =>
        { success := false, stdout := "", stderr := m, exit_code := -1 }

/-- A left part that is non-empty keeps an appended string non-empty. -/
theorem append_ne_empty_left (a b : String) (h : a.data ≠ []) : a ++ b ≠ "" := by
  intro he
  have hd := congrArg String.data he
  rw [String.data_append] at hd
  exact h (List.append_eq_nil.mp hd).1

/-- C8: the endpoint always returns an object of exactly the four fields
success/stdout/stderr/exit_code (the `CodeResult` type) and never
propagates an exception (`executeCode` is total, every oracle outcome is
mapped to a result): empty code, an unsupported language, and a timeout
each give success = false with exit_code = -1 and an explanatory stderr; a
non-zero exit gives success = false with the process streams; and python
code "print(1+1)" whose interpreter run prints "2" gives success = true,
stdout "2", exit_code 0. -/
theorem c8_execute_code :
    (∀ (language code : Option String) (p1 p2 : ProcOutcome),
        pyStrip (code.getD "") = "" →
        executeCode language code p1 p2 =
          { success := false, stdout := "", stderr := "No code to run.", exit_code := -1 }) ∧
    (∀ (language code : Option String) (p1 p2 : ProcOutcome),
        supportedLangs.contains (pyLower (pyStrip (pyOrStr language "python"))) = false →
        pyStrip (code.getD "") ≠ "" →
        (executeCode language code p1 p2).success = false ∧
        (executeCode language code p1 p2).exit_code = -1 ∧
        (executeCode language code p1 p2).stderr ≠ "") ∧
    (∀ (code : Option String) (p2 : ProcOutcome),
        pyStrip (code.getD "") ≠ "" →
        executeCode (some "python") code ProcOutcome.timedOut p2 =
          { success := false, stdout := "", stderr := "Run timed out (max 15s)."
          , exit_code := -1 }) ∧
    (∀ (code : Option String) (p2 : ProcOutcome) (out err : String) (rc : Int),
        pyStrip (code.getD "") ≠ "" → rc ≠ 0 →
        executeCode (some "python") code (ProcOutcome.completed out err rc) p2 =
          { success := false, stdout := pyStrip out, stderr := pyStrip err
          , exit_code := rc }) ∧
    (∀ (p2 : ProcOutcome),
        executeCode (some "python") (some "print(1+1)")
          (ProcOutcome.completed "2\n" "" 0) p2 =
          { success := true, stdout := "2", stderr := "", exit_code := 0 }) := by
  refine ⟨?_, ?_, ?_, ?_, ?_⟩
  · intro language code p1 p2 h
    unfold executeCode
    rw [if_pos h]
  · intro language code p1 p2 hlang hcode
    unfold executeCode
    rw [if_neg hcode]
    unfold runCodeSubprocess
    have hcond : (!(supportedLangs.contains
        (pyLower (pyStrip (pyOrStr language "python"))))) = true := by
      rw [hlang]
      rfl
    rw [if_pos hcond]
    refine ⟨rfl, rfl, ?_⟩
    intro he
    have hd := congrArg (fun u : String => u.data.length) he
    simp only [String.data_append, List.length_append] at hd
    have h22 : ("Unsupported language: ".data).length = 22 := rfl
    have h0 : (("" : String).data).length = 0 := rfl
    rw [h22, h0] at hd
    omega
  · intro code p2 h
    unfold executeCode
    rw [if_neg h]
    rfl
  · intro code p2 out err rc hcode hrc
    unfold executeCode
    rw [if_neg hcode]
    unfold runCodeSubprocess
    rw [if_neg (by decide), if_pos (by decide)]
    have : (rc == 0) = false := by simpa using hrc
    simp [this]
  · intro p2
    unfold executeCode
    rw [if_neg (by decide)]
    rfl

/-- C8 witness: concrete instances of every conditional part — empty code,
the unsupported language "ruby", a python timeout, and a python run exiting
with status 1. -/
theorem c8_execute_code_witness :
    (executeCode (some "python") (some "   ") ProcOutcome.timedOut ProcOutcome.timedOut =
      { success := false, stdout := "", stderr := "No code to run.", exit_code := -1 }) ∧
    ((executeCode (some "ruby") (some "puts 1") ProcOutcome.timedOut ProcOutcome.timedOut).success = false ∧
     (executeCode (some "ruby") (some "puts 1") ProcOutcome.timedOut ProcOutcome.timedOut).exit_code = -1 ∧
     (executeCode (some "ruby") (some "puts 1") ProcOutcome.timedOut ProcOutcome.timedOut).stderr ≠ "") ∧
    (executeCode (some "python") (some "while True: pass") ProcOutcome.timedOut ProcOutcome.timedOut =
      { success := false, stdout := "", stderr := "Run timed out (max 15s)."
      , exit_code := -1 }) ∧
    (executeCode (some "python") (some "import sys; sys.exit(1)")
        (ProcOutcome.completed "" "boom" 1) ProcOutcome.timedOut =
      { success := false, stdout := "", stderr := "boom", exit_code := 1 }) := by
  refine ⟨?_, ?_, ?_, ?_⟩
  · exact c8_execute_code.1 (some "python") (some "   ") _ _ (by decide)
  · exact c8_execute_code.2.1 (some "ruby") (some "puts 1") _ _ (by decide) (by decide)
  · exact c8_execute_code.2.2.1 (some "while True: pass") _ (by decide)
  · have h := c8_execute_code.2.2.2.1 (some "import sys; sys.exit(1)")
      ProcOutcome.timedOut "" "boom" 1 (by decide) (by decide)
    simpa using h

end Vedya
